import Mathlib

/-!
HR dashboard controller (`app/static/js/model.js`): a shallow embedding.

The controller class `HRDashboard` is embedded method by method.

* JavaScript numbers are IEEE-754 binary64 values.  A finite number is modelled by the
  rational it denotes; every arithmetic operation of the source is the exact rational
  operation followed by `roundDouble` (round to nearest, ties to even).
* `Math.random` is a sequence of draws with a cursor that every call advances.
* The DOM, the timer queue and the charting library are explicit state.
-/

namespace HRDashboard

/-! ## Numbers -/

/-- Nearest integer to `m`, a tie going to the even neighbour. -/
def roundHalfEven (m : ℚ) : ℤ :=
  if m - ⌊m⌋ < 1 / 2 then ⌊m⌋
  else if 1 / 2 < m - ⌊m⌋ then ⌊m⌋ + 1
  else if ⌊m⌋ % 2 = 0 then ⌊m⌋ else ⌊m⌋ + 1

/-- Exponent of the binade that holds the positive rational `q`: `⌊log₂ q⌋`, and the least
normal exponent `-1022` for everything below `2 ^ (-1022)` (the subnormal range). -/
def binade (q : ℚ) : ℤ := max (Int.log 2 q) (-1022)

/-- Spacing of binary64 values in the binade of `q` (53 significant bits). -/
def ulp (q : ℚ) : ℚ := (2 : ℚ) ^ (binade q - 52)

/-- The binary64 value that a real result `q` is rounded to (round to nearest, ties to even).
Finite range only: results of magnitude `2 ^ 1024` and above, which become `Infinity`, do not
occur in this program, whose operands are all below `2 ^ 18`. -/
def roundDouble (q : ℚ) : ℚ :=
  if q = 0 then 0
  else if 0 < q then roundHalfEven (q / ulp q) * ulp q
  else -(roundHalfEven (-q / ulp (-q)) * ulp (-q))

/-- The rational `q` is a binary64 value. -/
def IsDouble (q : ℚ) : Prop := roundDouble q = q

instance (q : ℚ) : Decidable (IsDouble q) := by unfold IsDouble; infer_instance

/-- The number a decimal literal of the source denotes. -/
def lit (q : ℚ) : ℚ := roundDouble q

/-- JavaScript `a * b` on numbers. -/
def jsMul (a b : ℚ) : ℚ := roundDouble (a * b)

/-- JavaScript `a + b` on numbers. -/
def jsAdd (a b : ℚ) : ℚ := roundDouble (a + b)

/-- The expression `Math.random() * scale + offset` for a draw `r`. -/
def scaled (scale offset r : ℚ) : ℚ := jsAdd (jsMul r (lit scale)) (lit offset)

/-! ## The ambient random source -/

/-- The sequence of numbers that successive calls of `Math.random` return. -/
abbrev RandomSource := ℕ → ℚ

/-- Every draw is a binary64 value in `[0, 1)`. -/
def ValidSource (rng : RandomSource) : Prop :=
  ∀ k, IsDouble (rng k) ∧ 0 ≤ rng k ∧ rng k < 1

/-- The callback-driven `Array.prototype.map`: `f` receives the element and the number of draws
consumed so far, and returns its result with the new number of draws consumed. -/
def mapDraws {α β : Type} (f : α → ℕ → β × ℕ) : List α → ℕ → List β × ℕ
  | [], k => ([], k)
  | a :: rest, k =>
    let r := f a k
    let rs := mapDraws f rest r.2
    (r.1 :: rs.1, rs.2)

/-- The callback `() => Math.random() * scale + offset`, taking one draw. -/
def draw {α : Type} (rng : RandomSource) (scale offset : ℚ) (_ : α) (k : ℕ) : ℚ × ℕ :=
  (scaled scale offset (rng k), k + 1)

/-! ## Chart payloads -/

structure HeatmapData where
  x : List String
  y : List String
  z : List (List ℚ)
  type : String
  colorscale : String
  reversescale : Bool
deriving DecidableEq

structure ScatterTrace where
  x : List ℚ
  y : List ℚ
  mode : String
  name : String
  type : String
deriving DecidableEq

structure BarData where
  x : List String
  y : List ℚ
  type : String
deriving DecidableEq

structure NamedBarData where
  x : List String
  y : List ℚ
  name : String
  type : String
deriving DecidableEq

structure PieData where
  labels : List String
  values : List ℚ
  type : String
deriving DecidableEq

structure LineData where
  x : List String
  y : List ℚ
  type : String
  mode : String
deriving DecidableEq

/-- Funnel payload.  The values `100 - i * 20` are integers far below `2 ^ 53` in magnitude
(an array index is below `2 ^ 32`), where binary64 arithmetic is exact, so they are integers
here. -/
structure FunnelData where
  y : List String
  x : List ℤ
  type : String
deriving DecidableEq

structure ErrorY where
  type : String
  array : List ℚ
deriving DecidableEq

structure BarWithErrorData where
  x : List String
  y : List ℚ
  error_y : ErrorY
  type : String
deriving DecidableEq

/-! ## Mock data generators -/

def generateHeatmapData (rng : RandomSource) (k : ℕ) (departments roles : List String) :
    HeatmapData × ℕ :=
  let z := mapDraws (fun _ j => mapDraws (draw rng (8 / 10) (1 / 10)) roles j) departments k
  ({ x := roles, y := departments, z := z.1, type := "heatmap", colorscale := "RdYlGn",
     reversescale := true }, z.2)

def generateScatterData (rng : RandomSource) (k : ℕ) (categories : List String) :
    List ScatterTrace × ℕ :=
  mapDraws (fun cat j =>
    ({ x := [scaled 100000 40000 (rng j)],
       y := [scaled (8 / 10) (1 / 10) (rng (j + 1))],
       mode := "markers",
       name := cat,
       type := "scatter" }, j + 2)) categories k

def generateBarData (rng : RandomSource) (k : ℕ) (categories : List String) : BarData × ℕ :=
  let y := mapDraws (draw rng (3 / 10) (5 / 100)) categories k
  ({ x := categories, y := y.1, type := "bar" }, y.2)

def generateGroupedBarData (rng : RandomSource) (k : ℕ) (categories : List String) :
    List NamedBarData × ℕ :=
  let y1 := mapDraws (draw rng 2 3) categories k
  let y2 := mapDraws (draw rng 2 3) categories y1.2
  ([{ x := categories, y := y1.1, name := "Job Satisfaction", type := "bar" },
    { x := categories, y := y2.1, name := "Work-Life Balance", type := "bar" }], y2.2)

def generatePieData (rng : RandomSource) (k : ℕ) (labels : List String) : PieData × ℕ :=
  let values := mapDraws (draw rng 30 10) labels k
  ({ labels := labels, values := values.1, type := "pie" }, values.2)

def generateLineData (rng : RandomSource) (k : ℕ) (categories : List String) : LineData × ℕ :=
  let y := mapDraws (draw rng 2 3) categories k
  ({ x := categories, y := y.1, type := "scatter", mode := "lines+markers" }, y.2)

def generateFunnelData (levels : List String) : FunnelData :=
  let values := levels.mapIdx (fun i _ => (100 : ℤ) - (i : ℤ) * 20)
  { y := levels, x := values, type := "funnel" }

def generateBarWithErrorData (rng : RandomSource) (k : ℕ) (categories : List String) :
    BarWithErrorData × ℕ :=
  let y := mapDraws (draw rng 50000 60000) categories k
  let arr := mapDraws (draw rng 10000 5000) categories y.2
  ({ x := categories, y := y.1, error_y := { type := "data", array := arr.1 }, type := "bar" },
   arr.2)

/-- A source whose every draw is the largest binary64 value below 1. -/
def rngMax : RandomSource := fun _ => 1 - (2 : ℚ) ^ (-53 : ℤ)

/-- A source whose every draw is one half. -/
def rngHalf : RandomSource := fun _ => 1 / 2

/-! ## Dashboard data and chart configuration -/

structure SunburstData where
  ids : List String
  labels : List String
  parents : List String
  values : List ℤ
  type : String
deriving DecidableEq

/-- A row of the risk monitoring table.  `employeeId` is a non-negative integer below `10 ^ 21`,
the range in which the number-to-string conversion of a template literal prints plain decimal
digits; `riskScore` is the string that `toFixed(3)` produced. -/
structure TableRow where
  employeeId : ℕ
  jobRole : String
  department : String
  riskScore : String
deriving DecidableEq

structure KpiSet where
  replacementCost : ℚ
  recruitingSpend : ℚ
  revenueAtRisk : ℚ
  currentAttrition : ℚ
  newHires : ℚ
  openPositions : ℚ
  interviewsToday : ℚ
  exitInterviews : ℚ
deriving DecidableEq

/-- The `charts` record of a `DashboardData`, one payload per chart name, each of the shape
that `generateMockChartData` gives it (time series have the fields of `LineData`). -/
structure Charts where
  riskHeatmap : HeatmapData
  workforceROI : List ScatterTrace
  attritionForecast : LineData
  attritionAnalysis : BarData
  recruitmentPerformance : List ScatterTrace
  employeeEngagement : List NamedBarData
  performanceAnalytics : PieData
  workforceDemographics : SunburstData
  compensationIntelligence : List ScatterTrace
  learningROI : LineData
  managerPerformance : List ScatterTrace
  riskMonitoring : List TableRow
  talentPipeline : FunnelData
  journeyMapping : LineData
  compensationAnalytics : BarWithErrorData
  workforcePlanning : LineData
deriving DecidableEq

structure DashboardData where
  kpis : KpiSet
  charts : Charts
deriving DecidableEq

structure Font where
  family : String
  color : String
deriving DecidableEq

structure ThemeLayout where
  paper_bgcolor : String
  plot_bgcolor : String
  font : Font
deriving DecidableEq

structure Margin where
  t : ℕ
  r : ℕ
  b : ℕ
  l : ℕ
deriving DecidableEq

structure Theme where
  layout : ThemeLayout
  colorway : List String
  margin : Margin
deriving DecidableEq

structure ChartConfigs where
  theme : Theme
  responsive : Bool
  displayModeBar : Bool
deriving DecidableEq

structure Axis where
  title : String
  tickangle : Option ℤ
deriving DecidableEq

/-- The layout object of a draw call: the spread theme layout, the title and the chart-specific
keys, absent keys being `none`. -/
structure Layout where
  paper_bgcolor : String
  plot_bgcolor : String
  font : Font
  title : String
  barmode : Option String
  xaxis : Option Axis
  yaxis : Option Axis
deriving DecidableEq

/-- One trace object handed to the charting library. -/
inductive Trace where
  | heatmap (d : HeatmapData)
  | scatter (d : ScatterTrace)
  | line (d : LineData)
  | bar (d : BarData)
  | namedBar (d : NamedBarData)
  | pie (d : PieData)
  | sunburst (d : SunburstData)
  | funnel (d : FunnelData)
  | barWithError (d : BarWithErrorData)
deriving DecidableEq

/-- The arguments of one `Plotly.newPlot(containerId, data, layout, config)` call. -/
structure DrawCall where
  containerId : String
  data : List Trace
  layout : Layout
  config : ChartConfigs
deriving DecidableEq

/-- What a `Plotly.newPlot` call does: it returns a promise that resolves after drawing, returns
a promise that rejects, or throws before returning. -/
inductive PlotOutcome where
  | drawn
  | rejects
  | throws
deriving DecidableEq

/-! ## Controller state, DOM and trace of effects -/

structure DashboardState where
  sidebarOpen : Bool
  currentSection : String
  refreshInterval : ℕ
  lastUpdated : ℕ
  dashboardData : Option DashboardData
  realTimeEnabled : Bool
deriving DecidableEq

/-- A `.sidebar-link` element: its `data-section` attribute and its class list. -/
structure NavLink where
  dataSection : String
  classList : List String
deriving DecidableEq

/-- A card written into `#financial-kpis` by `updateKPIs`. -/
structure KpiCard where
  label : String
  value : ℚ
  icon : String
  cssClass : String
deriving DecidableEq

/-- The part of the document the controller reads and writes.  An element that may be missing
is an `Option`; `plots` holds, per container id, the draw call whose chart the container shows
(`Plotly.newPlot` replaces the chart of its container). -/
structure Dom where
  sidebar : Option (List String)
  mainContent : Option (List String)
  navLinks : List NavLink
  elementIds : List String
  riskMonitoringTable : Option String
  financialKpis : Option (List KpiCard)
  lastUpdatedTime : Option (Option ℕ)
  plots : List (String × DrawCall)
deriving DecidableEq

/-- Calls that leave the controller, and entries of controller methods, recorded in order. -/
inductive Effect where
  | newPlot (call : DrawCall)
  | renderRiskMonitoringTable
  | updateKPIs
  | updateTimestamp
  | consoleError (msg : String)
  | alert (msg : String)
  | scrollIntoView (id : String)
  | scheduleRedraw (delay : ℕ)
  | redrawCharts
  | handleResize
  | closeSidebar
deriving DecidableEq

/-- The controller object with its environment: `state` and `chartConfigs` are the fields of
`this`; `innerWidth` is `window.innerWidth`; `now` is the clock in milliseconds;
`resizeTimeout` is the due time of the pending debounce timer of `setupResizeHandler`, if one
is pending; `log` is the trace of effects, each stamped with the time it happened. -/
structure World where
  state : DashboardState
  chartConfigs : ChartConfigs
  dom : Dom
  innerWidth : ℕ
  now : ℕ
  resizeTimeout : Option ℕ
  log : List (ℕ × Effect)
deriving DecidableEq

/-- How a method call ends: it returns (for an adapter: a promise that resolves), it returns a
promise that rejects, or it throws. -/
inductive Completion where
  | normal (w : World)
  | rejected (w : World)
  | thrown (w : World)
deriving DecidableEq

def Completion.world : Completion → World
  | .normal w => w
  | .rejected w => w
  | .thrown w => w

def emit (e : Effect) (w : World) : World :=
  { w with log := w.log ++ [(w.now, e)] }

/-- The state that `initializeState` builds (the `charts: {}` field, never read, is left out). -/
def initializeState (innerWidth now : ℕ) : DashboardState :=
  { sidebarOpen := decide (innerWidth > 1200)
    currentSection := "executive"
    refreshInterval := 30000
    lastUpdated := now
    dashboardData := none
    realTimeEnabled := true }

/-- The chart configuration that `initializeState` stores. -/
def initialChartConfigs : ChartConfigs :=
  { theme :=
      { layout :=
          { paper_bgcolor := "rgba(0,0,0,0)"
            plot_bgcolor := "rgba(0,0,0,0)"
            font := { family := "Inter, sans-serif", color := "#374151" } }
        colorway := ["#2563eb", "#059669", "#dc2626", "#d97706", "#7c3aed", "#0891b2"]
        margin := { t := 20, r := 20, b := 40, l := 40 } }
    responsive := true
    displayModeBar := false }

/-! ## Sidebar -/

/-- The method `classList.add(c)`. -/
def classAdd (c : String) (l : List String) : List String :=
  if c ∈ l then l else l ++ [c]

/-- The method `classList.remove(c)`. -/
def classRemove (c : String) (l : List String) : List String :=
  l.filter (fun x => x ≠ c)

/-- The method `updateSidebarState`.  Its closing `setTimeout(() => this.redrawCharts(), 300)`
is recorded in the trace: the source calls `redrawCharts` and defines it nowhere. -/
def updateSidebarState (w : World) : World :=
  let dom :=
    if w.state.sidebarOpen then
      { w.dom with
        sidebar := w.dom.sidebar.map (classAdd "active")
        mainContent := w.dom.mainContent.map (classAdd "sidebar-open") }
    else
      { w.dom with
        sidebar := w.dom.sidebar.map (classRemove "active")
        mainContent := w.dom.mainContent.map (classRemove "sidebar-open") }
  emit (Effect.scheduleRedraw 300) { w with dom := dom }

def toggleSidebar (w : World) : World :=
  updateSidebarState { w with state := { w.state with sidebarOpen := !w.state.sidebarOpen } }

def closeSidebar (w : World) : World :=
  let w1 := emit Effect.closeSidebar w
  updateSidebarState { w1 with state := { w1.state with sidebarOpen := false } }

/-! ## Resize handling -/

def handleResize (w : World) : World :=
  let w1 := emit Effect.handleResize w
  let isMobile := decide (w1.innerWidth < 1200)
  if isMobile && w1.state.sidebarOpen then closeSidebar w1 else w1

/-- The callback that `setupResizeHandler` hands to `setTimeout`: `handleResize()` and then
`redrawCharts()`, the latter recorded in the trace. -/
def resizeTimerCallback (w : World) : World :=
  emit Effect.redrawCharts (handleResize w)

/-- The `resize` listener of `setupResizeHandler`: `clearTimeout(resizeTimeout)` drops the
pending timer, `setTimeout(.., 250)` starts a new one. -/
def onResize (w : World) : World :=
  { w with resizeTimeout := some (w.now + 250) }

/-- Let the clock run to time `t`: a debounce timer due by then fires at its due time. -/
def advance (t : ℕ) (w : World) : World :=
  match w.resizeTimeout with
  | some due =>
    if due ≤ t then
      { resizeTimerCallback { w with now := due, resizeTimeout := none } with now := t }
    else { w with now := t }
  | none => { w with now := t }

/-- A `resize` event arriving at time `t` with the viewport `width` wide. -/
def resizeEvent (w : World) (e : ℕ × ℕ) : World :=
  onResize { advance e.1 w with innerWidth := e.2 }

/-- A burst of `resize` events, each given by its arrival time and viewport width, followed
by a wait until time `stop`. -/
def runBurst (events : List (ℕ × ℕ)) (stop : ℕ) (w : World) : World :=
  advance stop (events.foldl resizeEvent w)

/-! ## Navigation and scroll-spy -/

/-- The replacement `replace(/([A-Z])/g, '-$1')` on the characters of a string. -/
def hyphenateUpper : List Char → List Char
  | [] => []
  | c :: cs => if 'A' ≤ c ∧ c ≤ 'Z' then '-' :: c :: hyphenateUpper cs else c :: hyphenateUpper cs

/-- The method `toLowerCase`, on the ASCII letters (section identifiers are ASCII). -/
def toLowerCase (cs : List Char) : List Char := cs.map Char.toLower

/-- The id of the element `navigateToSection(sectionId)` scrolls to:
`sectionId.replace(/([A-Z])/g, '-$1').toLowerCase()`. -/
def sectionElementId (sectionId : String) : String :=
  String.mk (toLowerCase (hyphenateUpper sectionId.toList))

/-- The replacement `replace('-', '')` with a string pattern: only the first hyphen goes. -/
def removeFirstHyphen : List Char → List Char
  | [] => []
  | c :: cs => if c = '-' then cs else c :: removeFirstHyphen cs

/-- The section id the scroll-spy derives from a section element: `id.replace('-', '')`. -/
def scrollSpySectionId (elementId : String) : String :=
  String.mk (removeFirstHyphen elementId.toList)

def navigateToSection (sectionId : String) (w : World) : World :=
  let target := sectionElementId sectionId
  let w1 := if target ∈ w.dom.elementIds then emit (Effect.scrollIntoView target) w else w
  if w1.innerWidth < 1200 then closeSidebar w1 else w1

/-- An entry handed to the `IntersectionObserver` callback. -/
structure IntersectionEntry where
  targetId : String
  isIntersecting : Bool
deriving DecidableEq

/-- Give the class `active` to the first link whose `data-section` is `sectionId`. -/
def activateFirst (sectionId : String) : List NavLink → List NavLink
  | [] => []
  | l :: ls =>
    if l.dataSection = sectionId then
      { l with classList := classAdd "active" l.classList } :: ls
    else l :: activateFirst sectionId ls

/-- The body of the observer callback of `setupScrollSpy` for one entry.  The selector
`[data-section="..."]` is resolved among the navigation links, the elements that carry the
attribute; the section id holds no double quote or backslash, so that the selector is well
formed. -/
def scrollSpyEntry (w : World) (entry : IntersectionEntry) : World :=
  if entry.isIntersecting then
    let sectionId := scrollSpySectionId entry.targetId
    let activeLink := w.dom.navLinks.find? (fun l => l.dataSection = sectionId)
    let cleared := w.dom.navLinks.map
      (fun l => { l with classList := classRemove "active" l.classList })
    match activeLink with
    | some _ =>
      { w with
        dom := { w.dom with navLinks := activateFirst sectionId cleared }
        state := { w.state with currentSection := sectionId } }
    | none => { w with dom := { w.dom with navLinks := cleared } }
  else w

/-- The observer callback of `setupScrollSpy`. -/
def scrollSpy (entries : List IntersectionEntry) (w : World) : World :=
  entries.foldl scrollSpyEntry w

/-! ## Chart renderer adapters -/

/-- The layout `{ ...this.chartConfigs.theme.layout, title: '', .. }` of an adapter. -/
def themedLayout (cfg : ChartConfigs) (barmode : Option String) (xaxis yaxis : Option Axis) :
    Layout :=
  { paper_bgcolor := cfg.theme.layout.paper_bgcolor
    plot_bgcolor := cfg.theme.layout.plot_bgcolor
    font := cfg.theme.layout.font
    title := ""
    barmode := barmode
    xaxis := xaxis
    yaxis := yaxis }

/-- The axis object `{ title: .. }`. -/
def axis (title : String) : Option Axis := some { title := title, tickangle := none }

/-- The call `Plotly.newPlot(..)` of the external charting library, which `plotly` stands for:
it tells how each call ends.  A call that draws replaces the chart of its container (section 6
of the specification: the call draws or replaces the chart in the element with that id). -/
def newPlot (plotly : DrawCall → PlotOutcome) (call : DrawCall) (w : World) : Completion :=
  let w1 := emit (Effect.newPlot call) w
  match plotly call with
  | PlotOutcome.drawn =>
    Completion.normal
      { w1 with
        dom := { w1.dom with
          plots := (call.containerId, call) ::
            w1.dom.plots.filter (fun p => p.1 ≠ call.containerId) } }
  | PlotOutcome.rejects => Completion.rejected w1
  | PlotOutcome.throws => Completion.thrown w1

/-- The common shape of the fifteen charting adapters: read `this.state.dashboardData.charts`
(a `TypeError` is thrown when `dashboardData` is `null`), build the draw call and issue it. -/
def plotChart (plotly : DrawCall → PlotOutcome) (w : World)
    (mk : Charts → ChartConfigs → DrawCall) : Completion :=
  match w.state.dashboardData with
  | none => Completion.thrown w
  | some d => newPlot plotly (mk d.charts w.chartConfigs) w

def renderRiskHeatmap (plotly : DrawCall → PlotOutcome) (w : World) : Completion :=
  plotChart plotly w fun charts cfg =>
    { containerId := "risk-heatmap-chart"
      data := [Trace.heatmap charts.riskHeatmap]
      layout := themedLayout cfg none none none
      config := cfg }

def renderWorkforceROI (plotly : DrawCall → PlotOutcome) (w : World) : Completion :=
  plotChart plotly w fun charts cfg =>
    { containerId := "workforce-roi-chart"
      data := charts.workforceROI.map Trace.scatter
      layout := themedLayout cfg none (axis "Average Salary") (axis "Risk Score")
      config := cfg }

def renderAttritionForecast (plotly : DrawCall → PlotOutcome) (w : World) : Completion :=
  plotChart plotly w fun charts cfg =>
    { containerId := "attrition-forecast-chart"
      data := [Trace.line charts.attritionForecast]
      layout := themedLayout cfg none (axis "Month") (axis "Attrition Rate (%)")
      config := cfg }

def renderAttritionAnalysis (plotly : DrawCall → PlotOutcome) (w : World) : Completion :=
  plotChart plotly w fun charts cfg =>
    { containerId := "attrition-analysis-chart"
      data := [Trace.bar charts.attritionAnalysis]
      layout := themedLayout cfg none (axis "Department") (axis "Attrition Rate")
      config := cfg }

def renderRecruitmentPerformance (plotly : DrawCall → PlotOutcome) (w : World) : Completion :=
  plotChart plotly w fun charts cfg =>
    { containerId := "recruitment-performance-chart"
      data := charts.recruitmentPerformance.map Trace.scatter
      layout := themedLayout cfg none (axis "Days to Fill") (axis "Conversion Rate")
      config := cfg }

def renderEmployeeEngagement (plotly : DrawCall → PlotOutcome) (w : World) : Completion :=
  plotChart plotly w fun charts cfg =>
    { containerId := "employee-engagement-chart"
      data := charts.employeeEngagement.map Trace.namedBar
      layout := themedLayout cfg (some "group") (axis "Department") (axis "Average Score")
      config := cfg }

def renderPerformanceAnalytics (plotly : DrawCall → PlotOutcome) (w : World) : Completion :=
  plotChart plotly w fun charts cfg =>
    { containerId := "performance-analytics-chart"
      data := [Trace.pie charts.performanceAnalytics]
      layout := themedLayout cfg none none none
      config := cfg }

def renderWorkforceDemographics (plotly : DrawCall → PlotOutcome) (w : World) : Completion :=
  plotChart plotly w fun charts cfg =>
    { containerId := "workforce-demographics-chart"
      data := [Trace.sunburst charts.workforceDemographics]
      layout := themedLayout cfg none none none
      config := cfg }

def renderCompensationIntelligence (plotly : DrawCall → PlotOutcome) (w : World) : Completion :=
  plotChart plotly w fun charts cfg =>
    { containerId := "compensation-intelligence-chart"
      data := charts.compensationIntelligence.map Trace.scatter
      layout := themedLayout cfg none (axis "Average Salary") (axis "Risk Score")
      config := cfg }

def renderLearningROI (plotly : DrawCall → PlotOutcome) (w : World) : Completion :=
  plotChart plotly w fun charts cfg =>
    { containerId := "learning-roi-chart"
      data := [Trace.line charts.learningROI]
      layout := themedLayout cfg none (axis "Training Hours") (axis "Score")
      config := cfg }

def renderManagerPerformance (plotly : DrawCall → PlotOutcome) (w : World) : Completion :=
  plotChart plotly w fun charts cfg =>
    { containerId := "manager-performance-chart"
      data := charts.managerPerformance.map Trace.scatter
      layout := themedLayout cfg none (axis "Manager Satisfaction") (axis "Team Risk Score")
      config := cfg }

def renderTalentPipeline (plotly : DrawCall → PlotOutcome) (w : World) : Completion :=
  plotChart plotly w fun charts cfg =>
    { containerId := "talent-pipeline-chart"
      data := [Trace.funnel charts.talentPipeline]
      layout := themedLayout cfg none none none
      config := cfg }

def renderJourneyMapping (plotly : DrawCall → PlotOutcome) (w : World) : Completion :=
  plotChart plotly w fun charts cfg =>
    { containerId := "journey-mapping-chart"
      data := [Trace.line charts.journeyMapping]
      layout := themedLayout cfg none (axis "Tenure") (axis "Job Satisfaction")
      config := cfg }

def renderCompensationAnalytics (plotly : DrawCall → PlotOutcome) (w : World) : Completion :=
  plotChart plotly w fun charts cfg =>
    { containerId := "compensation-analytics-chart"
      data := [Trace.barWithError charts.compensationAnalytics]
      layout := themedLayout cfg none (some { title := "Job Role", tickangle := some (-45) }) (axis "Average Salary")
      config := cfg }

def renderWorkforcePlanning (plotly : DrawCall → PlotOutcome) (w : World) : Completion :=
  plotChart plotly w fun charts cfg =>
    { containerId := "workforce-planning-chart"
      data := [Trace.line charts.workforcePlanning]
      layout := themedLayout cfg none (axis "Month") (axis "Headcount")
      config := cfg }

/-- The fifteen charting adapters, in the order in which `renderAllCharts` calls them. -/
def chartAdapters : List ((DrawCall → PlotOutcome) → World → Completion) :=
  [renderRiskHeatmap, renderWorkforceROI, renderAttritionForecast, renderAttritionAnalysis,
   renderRecruitmentPerformance, renderEmployeeEngagement, renderPerformanceAnalytics,
   renderWorkforceDemographics, renderCompensationIntelligence, renderLearningROI,
   renderManagerPerformance, renderTalentPipeline, renderJourneyMapping,
   renderCompensationAnalytics, renderWorkforcePlanning]

/-- The table row that `renderRiskMonitoringTable` appends for `row`. -/
def tableRowHtml (row : TableRow) : String :=
  "<tr><td>" ++ toString row.employeeId ++ "</td><td>" ++ row.jobRole ++ "</td><td>" ++
    row.department ++ "</td><td>" ++ row.riskScore ++ "</td></tr>"

/-- The HTML that `renderRiskMonitoringTable` builds for the rows. -/
def riskTableHtml (rows : List TableRow) : String :=
  rows.foldl (fun html row => html ++ tableRowHtml row)
    ("<table class=\"table table-hover\"><thead><tr>" ++
      "<th>Employee ID</th><th>Job Role</th><th>Department</th><th>Risk Score</th></tr></thead><tbody>")
    ++ "</tbody></table>"

def renderRiskMonitoringTable (w : World) : Completion :=
  let w1 := emit Effect.renderRiskMonitoringTable w
  match w1.state.dashboardData with
  | none => Completion.thrown w1
  | some d =>
    match w1.dom.riskMonitoringTable with
    | none => Completion.normal w1
    | some _ =>
      Completion.normal
        { w1 with
          dom := { w1.dom with riskMonitoringTable := some (riskTableHtml d.charts.riskMonitoring) } }

/-- The array literal of `renderAllCharts`: the adapters are called in order; a call that
throws ends the evaluation, a rejected promise is noted for `Promise.all`. -/
def startCharts (plotly : DrawCall → PlotOutcome) :
    List ((DrawCall → PlotOutcome) → World → Completion) → World → Bool → Completion
  | [], w, anyRejected => if anyRejected then Completion.rejected w else Completion.normal w
  | a :: rest, w, anyRejected =>
    match a plotly w with
    | Completion.normal w1 => startCharts plotly rest w1 anyRejected
    | Completion.rejected w1 => startCharts plotly rest w1 true
    | Completion.thrown w1 => Completion.thrown w1

/-- The method `renderAllCharts`; `rejected` and `thrown` both mean that the promise it
returns rejects. -/
def renderAllCharts (plotly : DrawCall → PlotOutcome) (w : World) : Completion :=
  match w.state.dashboardData with
  | none => Completion.normal w
  | some _ =>
    match startCharts plotly chartAdapters w false with
    | Completion.normal w1 => renderRiskMonitoringTable w1
    | Completion.rejected w1 => Completion.rejected w1
    | Completion.thrown w1 => Completion.thrown w1

/-! ## Data loader -/

def updateKPIs (w : World) : Completion :=
  let w1 := emit Effect.updateKPIs w
  match w1.state.dashboardData with
  | none => Completion.thrown w1
  | some d =>
    match w1.dom.financialKpis with
    | none => Completion.normal w1
    | some _ =>
      let kpiList : List KpiCard :=
        [{ label := "Replacement Cost", value := d.kpis.replacementCost,
           icon := "fa-money-bill-wave", cssClass := "success" },
         { label := "Recruiting Spend", value := d.kpis.recruitingSpend,
           icon := "fa-search-dollar", cssClass := "info" },
         { label := "Revenue at Risk", value := d.kpis.revenueAtRisk,
           icon := "fa-exclamation-triangle", cssClass := "danger" },
         { label := "Current Attrition (%)", value := d.kpis.currentAttrition,
           icon := "fa-user-minus", cssClass := "warning" }]
      Completion.normal { w1 with dom := { w1.dom with financialKpis := some kpiList } }

def updateTimestamp (w : World) : World :=
  let w1 := emit Effect.updateTimestamp w
  match w1.dom.lastUpdatedTime with
  | none => w1
  | some _ => { w1 with dom := { w1.dom with lastUpdatedTime := some (some w1.now) } }

/-- The method `showErrorNotification(msg)`: its one effect is `alert(msg)`. -/
def showErrorNotification (msg : String) (w : World) : World :=
  emit (Effect.alert msg) w

/-- The `catch` block of `loadDashboardData`. -/
def loadFailed (w : World) : World :=
  showErrorNotification "Failed to load dashboard data"
    (emit (Effect.consoleError "Failed to load dashboard data:") w)

/-- One cycle of `loadDashboardData`, run without another handler in between.  `fetched` is how
`await this.fetchDashboardData()` ends: the mock of the source always resolves, a real endpoint
may reject. -/
def loadDashboardData (fetched : Except String DashboardData) (plotly : DrawCall → PlotOutcome)
    (w : World) : World :=
  match fetched with
  | Except.error _ => loadFailed w
  | Except.ok response =>
    let w1 := { w with state := { w.state with dashboardData := some response } }
    match renderAllCharts plotly w1 with
    | Completion.normal w2 =>
      match updateKPIs w2 with
      | Completion.normal w3 => updateTimestamp w3
      | Completion.rejected w3 => loadFailed w3
      | Completion.thrown w3 => loadFailed w3
    | Completion.rejected w2 => loadFailed w2
    | Completion.thrown w2 => loadFailed w2

/-- Call a method and go on with the world it leaves, whether or not it failed. -/
def invoke (a : World → Completion) (w : World) : World := (a w).world

/-- Call a method `n` times in a row. -/
def invokeTimes (n : ℕ) (a : World → Completion) (w : World) : World :=
  (invoke a)^[n] w

/-! ## Reading the trace -/

/-- The user notifications: `alert` calls, which only `showErrorNotification` makes. -/
def Effect.isNotification : Effect → Bool
  | Effect.alert _ => true
  | _ => false

/-- The `console.error` calls, which only the `catch` block of `loadDashboardData` makes. -/
def Effect.isConsoleError : Effect → Bool
  | Effect.consoleError _ => true
  | _ => false

/-- Chart renders: a draw call or the table renderer. -/
def Effect.isChartRender : Effect → Bool
  | Effect.newPlot _ => true
  | Effect.renderRiskMonitoringTable => true
  | _ => false

/-- Chart renders, KPI updates and timestamp updates. -/
def Effect.isRenderOrUpdate : Effect → Bool
  | Effect.newPlot _ => true
  | Effect.renderRiskMonitoringTable => true
  | Effect.updateKPIs => true
  | Effect.updateTimestamp => true
  | _ => false

/-- The effects recorded on the way from `w` to `after`. -/
def effectsSince (w after : World) : List Effect :=
  (after.log.drop w.log.length).map Prod.snd

/-- The world `after` has the controller state of `w`, and its trace is the trace of `w`
followed by chart renders only. -/
def RendersOnly (w after : World) : Prop :=
  after.state = w.state ∧
    ∃ evs : List (ℕ × Effect), after.log = w.log ++ evs ∧ ∀ e ∈ evs, e.2.isChartRender = true

/-- A charting library whose every call throws. -/
def plotlyThrows : DrawCall → PlotOutcome := fun _ => PlotOutcome.throws

/-- A charting library whose every call draws. -/
def plotlyDraws : DrawCall → PlotOutcome := fun _ => PlotOutcome.drawn

/-- Whether a cycle of `loadDashboardData` fails during fetch or during chart rendering: the
fetch rejects, or it resolves and the promise of `renderAllCharts` rejects. -/
def cycleFailed (fetched : Except String DashboardData) (plotly : DrawCall → PlotOutcome)
    (w : World) : Bool :=
  match fetched with
  | Except.error _ => true
  | Except.ok response =>
    match renderAllCharts plotly
        { w with state := { w.state with dashboardData := some response } } with
    | Completion.normal _ => false
    | Completion.rejected _ => true
    | Completion.thrown _ => true

/-- The value of `state.dashboardData` that the source leaves after a failed cycle. -/
def dataAfterFailure (fetched : Except String DashboardData) (w : World) :
    Option DashboardData :=
  match fetched with
  | Except.error _ => w.state.dashboardData
  | Except.ok response => some response

/-- A small `DashboardData`. -/
def sampleData : DashboardData :=
  { kpis :=
      { replacementCost := 2850, recruitingSpend := 180, revenueAtRisk := 1245,
        currentAttrition := 57 / 4, newHires := 23, openPositions := 15,
        interviewsToday := 38, exitInterviews := 7 }
    charts :=
      { riskHeatmap :=
          { x := ["Data Analyst"], y := ["Tech"], z := [[1 / 2]], type := "heatmap",
            colorscale := "RdYlGn", reversescale := true }
        workforceROI :=
          [{ x := [90000], y := [1 / 2], mode := "markers", name := "Tech", type := "scatter" }]
        attritionForecast := { x := ["Jan"], y := [15], type := "scatter", mode := "lines+markers" }
        attritionAnalysis := { x := ["Tech"], y := [1 / 4], type := "bar" }
        recruitmentPerformance := []
        employeeEngagement := []
        performanceAnalytics := { labels := ["Good"], values := [25], type := "pie" }
        workforceDemographics :=
          { ids := ["Tech"], labels := ["Tech"], parents := [""], values := [100],
            type := "sunburst" }
        compensationIntelligence := []
        learningROI := { x := ["0-20h"], y := [4], type := "scatter", mode := "lines+markers" }
        managerPerformance := []
        riskMonitoring :=
          [{ employeeId := 1000, jobRole := "Data Scientist", department := "Tech",
             riskScore := "0.815" }]
        talentPipeline := generateFunnelData ["Junior", "Mid"]
        journeyMapping := { x := ["<1yr"], y := [4], type := "scatter", mode := "lines+markers" }
        compensationAnalytics :=
          { x := ["Data Analyst"], y := [85000], error_y := { type := "data", array := [7500] },
            type := "bar" }
        workforcePlanning := { x := ["Jan"], y := [15], type := "scatter", mode := "lines+markers" } } }

/-! ## Sample pages -/

/-- Whether the element, if present, carries the class `c`. -/
def hasClass (c : String) (el : Option (List String)) : Bool :=
  match el with
  | none => false
  | some l => decide (c ∈ l)

/-- Whether the class `c` of the element mirrors `flag`; a missing element has nothing to
mirror. -/
def classMirrors (c : String) (flag : Bool) (el : Option (List String)) : Bool :=
  match el with
  | none => true
  | some l => decide (c ∈ l) == flag

/-- A page whose sidebar markup carries no `active` class and whose main content carries no
`sidebar-open` class, with two navigation links and their sections. -/
def plainDom : Dom :=
  { sidebar := some ["sidebar"]
    mainContent := some ["main-content"]
    navLinks := [{ dataSection := "executive", classList := ["sidebar-link", "active"] },
                 { dataSection := "riskAnalysis", classList := ["sidebar-link"] }]
    elementIds := ["executive", "risk-analysis"]
    riskMonitoringTable := some ""
    financialKpis := some []
    lastUpdatedTime := some none
    plots := [] }

/-- The controller right after its constructor ran `initializeState` at time `0` in a viewport
`innerWidth` wide. -/
def startWorld (innerWidth : ℕ) (dom : Dom) : World :=
  { state := initializeState innerWidth 0
    chartConfigs := initialChartConfigs
    dom := dom
    innerWidth := innerWidth
    now := 0
    resizeTimeout := none
    log := [] }

/-- The controller holding `sampleData`, on the plain page in a viewport 1920 wide. -/
def loadedWorld : World :=
  { startWorld 1920 plainDom with
    state := { initializeState 1920 0 with dashboardData := some sampleData } }

/-! ## Time series generator -/

/-- The month names of `generateTimeSeriesData`. -/
def monthNames : List String :=
  ["Jan", "Feb", "Mar", "Apr", "May", "Jun", "Jul", "Aug", "Sep", "Oct", "Nov", "Dec"]

/-- How a call of `generateTimeSeriesData` ends: it returns a payload (and has consumed draws
up to the given count), it throws `RangeError: Invalid array length`, or the engine runs out of
memory while building the array and nothing is returned. -/
inductive TimeSeriesResult where
  | returned (payload : LineData) (draws : ℕ)
  | rangeError
  | outOfMemory
deriving DecidableEq

/-- The method `generateTimeSeriesData(months)` for a non-negative integer `months`.
`monthNames.slice(0, months)` keeps the first `months` names.  `Array.from({length: months}, f)`
first creates an array of that length, which the language refuses with a `RangeError` when
`months` exceeds the largest array length `2 ^ 32 - 1`; it then calls `f` once per index, in
order.  The language sets no other bound, the engine does: `capacity` is the longest array the
engine that runs the page can build, and a longer request below `2 ^ 32` ends out of memory. -/
def generateTimeSeriesData (capacity : ℕ) (rng : RandomSource) (k : ℕ) (months : ℕ) :
    TimeSeriesResult :=
  let x := monthNames.take months
  if 2 ^ 32 ≤ months then TimeSeriesResult.rangeError
  else if capacity < months then TimeSeriesResult.outOfMemory
  else
    let y := mapDraws (draw rng 10 10) (List.range months) k
    TimeSeriesResult.returned
      { x := x, y := y.1, type := "scatter", mode := "lines+markers" } y.2

/-! ## Periodic refresh and the events of the page -/

/-- A repeating timer started by `setInterval`: its period and the time of its next tick. -/
structure IntervalTimer where
  period : ℕ
  nextDue : ℕ
deriving DecidableEq

/-- The controller with its environment, and the repeating timers started so far (the source
keeps no handle on them and never clears one). -/
structure Page where
  world : World
  intervals : List IntervalTimer
deriving DecidableEq

/-- The method `refreshDashboard`: one cycle of `loadDashboardData`. -/
def refreshDashboard (fetched : Except String DashboardData) (plotly : DrawCall → PlotOutcome)
    (w : World) : World :=
  loadDashboardData fetched plotly w

/-- The method `startRealTimeUpdates`: nothing when `realTimeEnabled` is false, otherwise
`setInterval(() => this.refreshDashboard(), this.state.refreshInterval)`. -/
def startRealTimeUpdates (p : Page) : Page :=
  if !p.world.state.realTimeEnabled then p
  else
    { p with
      intervals := p.intervals ++
        [{ period := p.world.state.refreshInterval
           nextDue := p.world.now + p.world.state.refreshInterval }] }

/-- What can happen to the page once the constructor has run: the events the controller
listens to, a completed load, the passing of time, and the tick of a repeating timer.  A load
comes with the outcome of its fetch and with the charting library. -/
inductive Event where
  | domContentLoaded
  | sidebarToggleClick
  | navLinkClick (sectionId : String)
  | keyToggleSidebar
  | load (fetched : Except String DashboardData) (plotly : DrawCall → PlotOutcome)
  | resize (time width : ℕ)
  | clock (time : ℕ)
  | intersection (entries : List IntersectionEntry)
  | intervalTick (i : ℕ) (fetched : Except String DashboardData)
      (plotly : DrawCall → PlotOutcome)

/-- The handler of each event.  `domContentLoaded` runs `updateTimestamp` and
`startRealTimeUpdates` (its other steps register listeners, which are the cases below);
`load` is the `loadDashboardData` of the constructor and of the refresh shortcut; the tick of
the `i`-th repeating timer happens at its due time, runs the timer callback
`refreshDashboard`, and sets the next tick one period later. -/
def step (e : Event) (p : Page) : Page :=
  match e with
  | Event.domContentLoaded => startRealTimeUpdates { p with world := updateTimestamp p.world }
  | Event.sidebarToggleClick => { p with world := toggleSidebar p.world }
  | Event.navLinkClick sectionId => { p with world := navigateToSection sectionId p.world }
  | Event.keyToggleSidebar => { p with world := toggleSidebar p.world }
  | Event.load fetched plotly => { p with world := loadDashboardData fetched plotly p.world }
  | Event.resize time width => { p with world := resizeEvent p.world (time, width) }
  | Event.clock time => { p with world := advance time p.world }
  | Event.intersection entries => { p with world := scrollSpy entries p.world }
  | Event.intervalTick i fetched plotly =>
    match p.intervals[i]? with
    | none => p
    | some t =>
      { world := refreshDashboard fetched plotly { p.world with now := t.nextDue }
        intervals := p.intervals.set i { t with nextDue := t.nextDue + t.period } }

/-- The page right after the constructor ran, in a viewport `innerWidth` wide. -/
def initialPage (innerWidth : ℕ) (dom : Dom) : Page :=
  { world := startWorld innerWidth dom, intervals := [] }

/-- The pages the controller can be in: the initial page and what events make of it. -/
inductive Reachable : Page → Prop where
  | init (innerWidth : ℕ) (dom : Dom) : Reachable (initialPage innerWidth dom)
  | step (e : Event) (p : Page) (h : Reachable p) : Reachable (step e p)

/-- The world `after` has the `realTimeEnabled` flag and the `refreshInterval` of `w`. -/
def KeepsTiming (w after : World) : Prop :=
  after.state.realTimeEnabled = w.state.realTimeEnabled ∧
    after.state.refreshInterval = w.state.refreshInterval

/-- The flag is set, the interval is the default, and every repeating timer has that period. -/
def TimerInvariant (p : Page) : Prop :=
  p.world.state.realTimeEnabled = true ∧ p.world.state.refreshInterval = 30000 ∧
    ∀ t ∈ p.intervals, t.period = 30000

/-! ## Lemmas on rounding -/

theorem roundHalfEven_ge_floor (m : ℚ) : ⌊m⌋ ≤ roundHalfEven m := by
  unfold roundHalfEven
  split_ifs <;> omega

theorem roundHalfEven_le_floor_succ (m : ℚ) : roundHalfEven m ≤ ⌊m⌋ + 1 := by
  unfold roundHalfEven
  split_ifs <;> omega

theorem roundHalfEven_intCast (n : ℤ) : roundHalfEven (n : ℚ) = n := by
  unfold roundHalfEven
  simp

theorem roundHalfEven_mono {a b : ℚ} (h : a ≤ b) : roundHalfEven a ≤ roundHalfEven b := by
  have hf : ⌊a⌋ ≤ ⌊b⌋ := Int.floor_mono h
  rcases hf.lt_or_eq with hlt | heq
  · calc roundHalfEven a ≤ ⌊a⌋ + 1 := roundHalfEven_le_floor_succ a
      _ ≤ ⌊b⌋ := hlt
      _ ≤ roundHalfEven b := roundHalfEven_ge_floor b
  · have hfr : a - ⌊a⌋ ≤ b - ⌊b⌋ := by rw [heq]; linarith
    unfold roundHalfEven
    rw [heq] at hfr ⊢
    split_ifs <;> first | omega | (exfalso; linarith)

theorem ulp_pos (q : ℚ) : 0 < ulp q := by
  unfold ulp
  positivity

theorem roundDouble_of_pos {q : ℚ} (h : 0 < q) :
    roundDouble q = roundHalfEven (q / ulp q) * ulp q := by
  unfold roundDouble
  rw [if_neg h.ne', if_pos h]

theorem roundDouble_zero : roundDouble 0 = 0 := by
  unfold roundDouble
  simp

theorem roundDouble_nonneg {q : ℚ} (h : 0 ≤ q) : 0 ≤ roundDouble q := by
  rcases h.lt_or_eq with hpos | hz
  · rw [roundDouble_of_pos hpos]
    have h0 : (0 : ℤ) ≤ roundHalfEven (q / ulp q) := by
      have := roundHalfEven_mono (div_nonneg hpos.le (ulp_pos q).le)
      rwa [show ((0 : ℚ)) = ((0 : ℤ) : ℚ) by simp, roundHalfEven_intCast] at this
    exact mul_nonneg (by exact_mod_cast h0) (ulp_pos q).le
  · rw [← hz, roundDouble_zero]

theorem binade_mono {a b : ℚ} (ha : 0 < a) (h : a ≤ b) : binade a ≤ binade b := by
  unfold binade
  exact max_le_max (Int.log_mono_right ha h) le_rfl

theorem two_zpow_binade_succ_gt (q : ℚ) : q < (2 : ℚ) ^ (binade q + 1) := by
  have h1 : q < ((2 : ℕ) : ℚ) ^ (Int.log 2 q + 1) := Int.lt_zpow_succ_log_self (by norm_num) q
  have h2 : ((2 : ℕ) : ℚ) ^ (Int.log 2 q + 1) ≤ (2 : ℚ) ^ (binade q + 1) := by
    have : Int.log 2 q + 1 ≤ binade q + 1 := by unfold binade; omega
    simpa using zpow_le_zpow_right₀ (by norm_num : (1 : ℚ) ≤ 2) this
  exact lt_of_lt_of_le h1 h2

/-- A positive number rounds to at most the upper end of its binade. -/
theorem roundDouble_le_binade_top {q : ℚ} (h : 0 < q) :
    roundDouble q ≤ (2 : ℚ) ^ (binade q + 1) := by
  rw [roundDouble_of_pos h]
  have hu := ulp_pos q
  have hm : q / ulp q ≤ (((2 : ℤ) ^ 53 : ℤ) : ℚ) := by
    rw [div_le_iff₀ hu]
    have : (((2 : ℤ) ^ 53 : ℤ) : ℚ) * ulp q = (2 : ℚ) ^ (binade q + 1) := by
      unfold ulp
      rw [show binade q + 1 = 53 + (binade q - 52) by ring, zpow_add₀ (by norm_num)]
      norm_num
    rw [this]
    exact (two_zpow_binade_succ_gt q).le
  have hr := roundHalfEven_mono hm
  rw [roundHalfEven_intCast] at hr
  have hr2 : ((roundHalfEven (q / ulp q) : ℤ) : ℚ) ≤ (((2 : ℤ) ^ 53 : ℤ) : ℚ) := by exact_mod_cast hr
  calc (roundHalfEven (q / ulp q) : ℚ) * ulp q ≤ (((2 : ℤ) ^ 53 : ℤ) : ℚ) * ulp q :=
        mul_le_mul_of_nonneg_right hr2 hu.le
    _ = (2 : ℚ) ^ (binade q + 1) := by
      unfold ulp
      rw [show binade q + 1 = 53 + (binade q - 52) by ring, zpow_add₀ (by norm_num)]
      norm_num

/-- A number at or above the lower end `2 ^ e` of its binade rounds to at least `2 ^ e`. -/
theorem roundDouble_ge_binade_bot {q : ℚ} (h : 0 < q) (hb : (2 : ℚ) ^ binade q ≤ q) :
    (2 : ℚ) ^ binade q ≤ roundDouble q := by
  rw [roundDouble_of_pos h]
  have hu := ulp_pos q
  have key : (((2 : ℤ) ^ 52 : ℤ) : ℚ) * ulp q = (2 : ℚ) ^ binade q := by
    unfold ulp
    rw [show (2 : ℚ) ^ binade q = (2 : ℚ) ^ (52 + (binade q - 52)) by ring_nf,
      zpow_add₀ (by norm_num)]
    norm_num
  have hm : (((2 : ℤ) ^ 52 : ℤ) : ℚ) ≤ q / ulp q := by
    rw [le_div_iff₀ hu, key]
    exact hb
  have hr := roundHalfEven_mono hm
  rw [roundHalfEven_intCast] at hr
  have hr2 : (((2 : ℤ) ^ 52 : ℤ) : ℚ) ≤ ((roundHalfEven (q / ulp q) : ℤ) : ℚ) := by exact_mod_cast hr
  calc (2 : ℚ) ^ binade q = (((2 : ℤ) ^ 52 : ℤ) : ℚ) * ulp q := key.symm
    _ ≤ (roundHalfEven (q / ulp q) : ℚ) * ulp q := mul_le_mul_of_nonneg_right hr2 hu.le

/-- Rounding is monotone on the non-negative numbers. -/
theorem roundDouble_mono {a b : ℚ} (ha : 0 ≤ a) (h : a ≤ b) : roundDouble a ≤ roundDouble b := by
  rcases ha.lt_or_eq with hpos | hz
  · have hbpos : 0 < b := lt_of_lt_of_le hpos h
    have he := binade_mono hpos h
    rcases he.lt_or_eq with hlt | heq
    · have hlog : binade b = Int.log 2 b := by
        have h1 : -1022 ≤ binade a := by unfold binade; exact le_max_right _ _
        unfold binade at hlt ⊢
        rcases max_cases (Int.log 2 b) (-1022) with ⟨h2, _⟩ | ⟨h2, _⟩
        · exact h2
        · rw [h2] at hlt; unfold binade at h1; omega
      have hbot : (2 : ℚ) ^ binade b ≤ b := by
        rw [hlog]
        simpa using Int.zpow_log_le_self (b := 2) (by norm_num) hbpos
      calc roundDouble a ≤ (2 : ℚ) ^ (binade a + 1) := roundDouble_le_binade_top hpos
        _ ≤ (2 : ℚ) ^ binade b := zpow_le_zpow_right₀ (by norm_num) (by omega)
        _ ≤ roundDouble b := roundDouble_ge_binade_bot hbpos hbot
    · rw [roundDouble_of_pos hpos, roundDouble_of_pos hbpos]
      have hu : ulp a = ulp b := by unfold ulp; rw [heq]
      rw [hu]
      have hm : a / ulp b ≤ b / ulp b := div_le_div_of_nonneg_right h (ulp_pos b).le
      have hr := roundHalfEven_mono hm
      have hr2 : ((roundHalfEven (a / ulp b) : ℤ) : ℚ) ≤ ((roundHalfEven (b / ulp b) : ℤ) : ℚ) := by
        exact_mod_cast hr
      exact mul_le_mul_of_nonneg_right hr2 (ulp_pos b).le
  · rw [← hz, roundDouble_zero]
    exact roundDouble_nonneg (hz ▸ h)

theorem binade_eq {q : ℚ} {e : ℤ} (hq : 0 < q) (he : -1022 ≤ e)
    (hlo : (2 : ℚ) ^ e ≤ q ∨ e = -1022) (hhi : q < (2 : ℚ) ^ (e + 1)) : binade q = e := by
  have h2 : Int.log 2 q < e + 1 := by
    rw [← Int.lt_zpow_iff_log_lt (by norm_num) hq]
    simpa using hhi
  unfold binade
  rcases hlo with hlo | hlo
  · have h1 : e ≤ Int.log 2 q := by
      rw [← Int.zpow_le_iff_le_log (by norm_num) hq]
      simpa using hlo
    rw [max_eq_left (by omega)]
    omega
  · rcases max_cases (Int.log 2 q) (-1022) with ⟨h, _⟩ | ⟨h, _⟩ <;> omega

theorem roundHalfEven_eq_of_near {m : ℚ} {n : ℤ} (h1 : (n : ℚ) - 1 / 2 < m)
    (h2 : m < (n : ℚ) + 1 / 2) : roundHalfEven m = n := by
  rcases le_or_lt (n : ℚ) m with h | h
  · have hf : ⌊m⌋ = n := by
      rw [Int.floor_eq_iff]
      constructor <;> linarith
    unfold roundHalfEven
    rw [hf, if_pos (by linarith)]
  · have hf : ⌊m⌋ = n - 1 := by
      rw [Int.floor_eq_iff]
      push_cast
      constructor <;> linarith
    unfold roundHalfEven
    rw [hf]
    push_cast
    rw [if_neg (by linarith), if_pos (by linarith)]
    ring

theorem roundHalfEven_tie_up {m : ℚ} {n : ℤ} (h : m = (n : ℚ) - 1 / 2) (hn : n % 2 = 0) :
    roundHalfEven m = n := by
  have hf : ⌊m⌋ = n - 1 := by
    rw [Int.floor_eq_iff]
    push_cast
    constructor <;> linarith
  unfold roundHalfEven
  rw [hf]
  push_cast
  rw [if_neg (by linarith), if_neg (by linarith), if_neg (by omega)]
  ring

theorem roundHalfEven_tie_down {m : ℚ} {n : ℤ} (h : m = (n : ℚ) + 1 / 2) (hn : n % 2 = 0) :
    roundHalfEven m = n := by
  have hf : ⌊m⌋ = n := by
    rw [Int.floor_eq_iff]
    constructor <;> linarith
  unfold roundHalfEven
  rw [hf, if_neg (by linarith), if_neg (by linarith), if_pos hn]

/-- Rounding a positive number whose binade is known. -/
theorem roundDouble_eval {q : ℚ} {e n : ℤ} (hq : 0 < q) (hb : binade q = e)
    (hn : roundHalfEven (q / (2 : ℚ) ^ (e - 52)) = n) :
    roundDouble q = (n : ℚ) * (2 : ℚ) ^ (e - 52) := by
  rw [roundDouble_of_pos hq]
  unfold ulp
  rw [hb, hn]

/-- A positive multiple `n * 2 ^ (e - 52)` with `2 ^ 52 ≤ n < 2 ^ 53` is a binary64 value. -/
theorem isDouble_of_normal {e n : ℤ} (he : -1022 ≤ e) (h1 : 2 ^ 52 ≤ n) (h2 : n < 2 ^ 53) :
    IsDouble ((n : ℚ) * (2 : ℚ) ^ (e - 52)) := by
  have hu : (0 : ℚ) < (2 : ℚ) ^ (e - 52) := by positivity
  have hn : (0 : ℚ) < (n : ℚ) := by
    have : (0 : ℤ) < n := by omega
    exact_mod_cast this
  have hq : 0 < (n : ℚ) * (2 : ℚ) ^ (e - 52) := mul_pos hn hu
  have e1 : (2 : ℚ) ^ e = (((2 : ℤ) ^ 52 : ℤ) : ℚ) * (2 : ℚ) ^ (e - 52) := by
    rw [show (2 : ℚ) ^ e = (2 : ℚ) ^ (52 + (e - 52)) by ring_nf, zpow_add₀ (by norm_num)]
    norm_num
  have e2 : (2 : ℚ) ^ (e + 1) = (((2 : ℤ) ^ 53 : ℤ) : ℚ) * (2 : ℚ) ^ (e - 52) := by
    rw [show e + 1 = 53 + (e - 52) by ring, zpow_add₀ (by norm_num)]
    norm_num
  have hb : binade ((n : ℚ) * (2 : ℚ) ^ (e - 52)) = e := by
    apply binade_eq hq he
    · left
      rw [e1]
      exact mul_le_mul_of_nonneg_right (by exact_mod_cast h1) hu.le
    · rw [e2]
      exact mul_lt_mul_of_pos_right (by exact_mod_cast h2) hu
  unfold IsDouble
  rw [roundDouble_eval hq hb (n := n)]
  rw [mul_div_assoc, div_self hu.ne', mul_one, roundHalfEven_intCast]

/-- The largest binary64 value below 1 is `1 - 2 ^ (-53)`. -/
theorem isDouble_lt_one {r : ℚ} (hd : IsDouble r) (h0 : 0 ≤ r) (h1 : r < 1) :
    r ≤ 1 - (2 : ℚ) ^ (-53 : ℤ) := by
  rcases h0.lt_or_eq with hpos | hz
  · have hlog : Int.log 2 r < 0 := by
      rw [← Int.lt_zpow_iff_log_lt (by norm_num) hpos]
      simpa using h1
    have hbn : binade r ≤ -1 := by
      unfold binade
      rcases max_cases (Int.log 2 r) (-1022) with ⟨h, _⟩ | ⟨h, _⟩ <;> omega
    rcases hbn.lt_or_eq with hlt | heq
    · have := two_zpow_binade_succ_gt r
      have h3 : (2 : ℚ) ^ (binade r + 1) ≤ (2 : ℚ) ^ (-1 : ℤ) :=
        zpow_le_zpow_right₀ (by norm_num) (by omega)
      have h4 : (2 : ℚ) ^ (-1 : ℤ) ≤ 1 - (2 : ℚ) ^ (-53 : ℤ) := by norm_num
      linarith
    · unfold IsDouble at hd
      rw [roundDouble_of_pos hpos] at hd
      have hu : ulp r = (2 : ℚ) ^ (-53 : ℤ) := by unfold ulp; rw [heq]; norm_num
      rw [hu] at hd
      set k := roundHalfEven (r / (2 : ℚ) ^ (-53 : ℤ)) with hk
      have hlt : (k : ℚ) * (2 : ℚ) ^ (-53 : ℤ) < 1 := by rw [hd]; exact h1
      have hk2 : (k : ℚ) < (((2 : ℤ) ^ 53 : ℤ) : ℚ) := by
        have h5 : (k : ℚ) * (2 : ℚ) ^ (-53 : ℤ) < (((2 : ℤ) ^ 53 : ℤ) : ℚ) * (2 : ℚ) ^ (-53 : ℤ) := by
          have : (((2 : ℤ) ^ 53 : ℤ) : ℚ) * (2 : ℚ) ^ (-53 : ℤ) = 1 := by norm_num
          rw [this]; exact hlt
        exact lt_of_mul_lt_mul_right h5 (by positivity)
      have hk3 : k ≤ 2 ^ 53 - 1 := by
        have : k < 2 ^ 53 := by exact_mod_cast hk2
        omega
      have hk4 : (k : ℚ) ≤ (((2 : ℤ) ^ 53 - 1 : ℤ) : ℚ) := by exact_mod_cast hk3
      calc r = (k : ℚ) * (2 : ℚ) ^ (-53 : ℤ) := hd.symm
        _ ≤ (((2 : ℤ) ^ 53 - 1 : ℤ) : ℚ) * (2 : ℚ) ^ (-53 : ℤ) :=
            mul_le_mul_of_nonneg_right hk4 (by positivity)
        _ = 1 - (2 : ℚ) ^ (-53 : ℤ) := by norm_num
  · rw [← hz]; norm_num


/-! ## Binary64 constants of the generators -/

theorem isDouble_rngMax : IsDouble (1 - (2 : ℚ) ^ (-53 : ℤ)) := by
  have h := isDouble_of_normal (e := -1) (n := 2 ^ 53 - 1) (by norm_num) (by norm_num)
    (by norm_num)
  norm_num at h ⊢
  exact h

theorem isDouble_half : IsDouble (1 / 2 : ℚ) := by
  have h := isDouble_of_normal (e := -1) (n := 2 ^ 52) (by norm_num) (by norm_num) (by norm_num)
  norm_num at h ⊢
  exact h

theorem isDouble_10 : IsDouble (10 : ℚ) := by
  have h := isDouble_of_normal (e := 3) (n := 5 * 2 ^ 50) (by norm_num) (by norm_num)
    (by norm_num)
  norm_num at h
  exact h

theorem isDouble_30 : IsDouble (30 : ℚ) := by
  have h := isDouble_of_normal (e := 4) (n := 15 * 2 ^ 49) (by norm_num) (by norm_num)
    (by norm_num)
  norm_num at h
  exact h

theorem isDouble_40 : IsDouble (40 : ℚ) := by
  have h := isDouble_of_normal (e := 5) (n := 5 * 2 ^ 50) (by norm_num) (by norm_num)
    (by norm_num)
  norm_num at h
  exact h

theorem isDouble_40000 : IsDouble (40000 : ℚ) := by
  have h := isDouble_of_normal (e := 15) (n := 625 * 2 ^ 43) (by norm_num) (by norm_num)
    (by norm_num)
  norm_num at h
  exact h

theorem isDouble_100000 : IsDouble (100000 : ℚ) := by
  have h := isDouble_of_normal (e := 16) (n := 3125 * 2 ^ 41) (by norm_num) (by norm_num)
    (by norm_num)
  norm_num at h
  exact h

theorem isDouble_140000 : IsDouble (140000 : ℚ) := by
  have h := isDouble_of_normal (e := 17) (n := 4375 * 2 ^ 40) (by norm_num) (by norm_num)
    (by norm_num)
  norm_num at h
  exact h

/-- The literal `0.8` denotes `7205759403792794 * 2 ^ (-53)`. -/
theorem lit_eight_tenths : lit (8 / 10) = 3602879701896397 / 4503599627370496 := by
  have hb : binade (8 / 10 : ℚ) = -1 :=
    binade_eq (by norm_num) (by norm_num) (Or.inl (by norm_num)) (by norm_num)
  unfold lit
  rw [roundDouble_eval (by norm_num) hb (n := 7205759403792794)
    (roundHalfEven_eq_of_near (by norm_num) (by norm_num))]
  norm_num

/-- The literal `0.1` denotes `7205759403792794 * 2 ^ (-56)`. -/
theorem lit_one_tenth : lit (1 / 10) = 3602879701896397 / 36028797018963968 := by
  have hb : binade (1 / 10 : ℚ) = -4 :=
    binade_eq (by norm_num) (by norm_num) (Or.inl (by norm_num)) (by norm_num)
  unfold lit
  rw [roundDouble_eval (by norm_num) hb (n := 7205759403792794)
    (roundHalfEven_eq_of_near (by norm_num) (by norm_num))]
  norm_num

/-- The literal `0.9` denotes `8106479329266893 * 2 ^ (-53)`. -/
theorem lit_nine_tenths : lit (9 / 10) = 8106479329266893 / 9007199254740992 := by
  have hb : binade (9 / 10 : ℚ) = -1 :=
    binade_eq (by norm_num) (by norm_num) (Or.inl (by norm_num)) (by norm_num)
  unfold lit
  rw [roundDouble_eval (by norm_num) hb (n := 8106479329266893)
    (roundHalfEven_eq_of_near (by norm_num) (by norm_num))]
  norm_num

/-- The product of the largest draw with `30` rounds to `30 - 2 ^ (-48)`. -/
theorem jsMul_rngMax_30 : jsMul (1 - (2 : ℚ) ^ (-53 : ℤ)) 30 = 30 - (2 : ℚ) ^ (-48 : ℤ) := by
  have hb : binade ((1 - (2 : ℚ) ^ (-53 : ℤ)) * 30) = 4 :=
    binade_eq (by norm_num) (by norm_num) (Or.inl (by norm_num)) (by norm_num)
  unfold jsMul
  rw [roundDouble_eval (by norm_num) hb (n := 2 ^ 52 * 30 / 16 - 1)
    (roundHalfEven_eq_of_near (by norm_num) (by norm_num))]
  norm_num

/-- The sum `(30 - 2 ^ (-48)) + 10` lies halfway between two binary64 values and rounds up to
`40`, whose significand is even. -/
theorem jsAdd_tie_40 : jsAdd (30 - (2 : ℚ) ^ (-48 : ℤ)) 10 = 40 := by
  have hb : binade (30 - (2 : ℚ) ^ (-48 : ℤ) + 10) = 5 :=
    binade_eq (by norm_num) (by norm_num) (Or.inl (by norm_num)) (by norm_num)
  unfold jsAdd
  rw [roundDouble_eval (by norm_num) hb (n := 5 * 2 ^ 50)
    (roundHalfEven_tie_up (by norm_num) (by norm_num))]
  norm_num

/-- The product of the largest draw with the literal `0.8`. -/
theorem jsMul_rngMax_lit08 :
    roundDouble ((1 - (2 : ℚ) ^ (-53 : ℤ)) * (3602879701896397 / 4503599627370496)) =
      7205759403792793 / 9007199254740992 := by
  have hb : binade ((1 - (2 : ℚ) ^ (-53 : ℤ)) * (3602879701896397 / 4503599627370496)) = -1 :=
    binade_eq (by norm_num) (by norm_num) (Or.inl (by norm_num)) (by norm_num)
  rw [roundDouble_eval (by norm_num) hb (n := 7205759403792793)
    (roundHalfEven_eq_of_near (by norm_num) (by norm_num))]
  norm_num

/-- The largest risk score: the sum of the largest product above with the literal `0.1`. -/
theorem jsAdd_risk_top :
    roundDouble (7205759403792793 / 9007199254740992 + 3602879701896397 / 36028797018963968) =
      8106479329266892 / 9007199254740992 := by
  have hb : binade (7205759403792793 / 9007199254740992 +
      3602879701896397 / 36028797018963968 : ℚ) = -1 :=
    binade_eq (by norm_num) (by norm_num) (Or.inl (by norm_num)) (by norm_num)
  rw [roundDouble_eval (by norm_num) hb (n := 8106479329266892)
    (roundHalfEven_eq_of_near (by norm_num) (by norm_num))]
  norm_num

/-! ## Ranges of `Math.random() * scale + offset` -/

/-- With binary64 constants `S`, `O ≥ 0` and a draw in `[0, 1]`, the computed
`r * S + O` lies between `O` and the rounded `S + O`. -/
theorem scaled_core_bounds {r S O : ℚ} (hS : IsDouble S) (hO : IsDouble O) (hS0 : 0 ≤ S)
    (hO0 : 0 ≤ O) (hr0 : 0 ≤ r) (hr1 : r ≤ 1) :
    O ≤ roundDouble (roundDouble (r * S) + O) ∧
      roundDouble (roundDouble (r * S) + O) ≤ roundDouble (S + O) := by
  have h1 : 0 ≤ roundDouble (r * S) := roundDouble_nonneg (mul_nonneg hr0 hS0)
  have h2 : roundDouble (r * S) ≤ S := by
    have := roundDouble_mono (mul_nonneg hr0 hS0) (mul_le_of_le_one_left hS0 hr1)
    rwa [hS] at this
  constructor
  · have := roundDouble_mono hO0 (show O ≤ roundDouble (r * S) + O by linarith)
    rwa [hO] at this
  · exact roundDouble_mono (by linarith) (by linarith)

theorem scaled_30_10_bounds {r : ℚ} (hr0 : 0 ≤ r) (hr1 : r ≤ 1) :
    10 ≤ scaled 30 10 r ∧ scaled 30 10 r ≤ 40 := by
  have h := scaled_core_bounds isDouble_30 isDouble_10 (by norm_num) (by norm_num) hr0 hr1
  have e1 : lit 30 = 30 := isDouble_30
  have e2 : lit 10 = 10 := isDouble_10
  have e3 : roundDouble ((30 : ℚ) + 10) = 40 := by norm_num; exact isDouble_40
  unfold scaled jsAdd jsMul
  rw [e1, e2]
  rw [e3] at h
  exact h

theorem scaled_salary_bounds {r : ℚ} (hr0 : 0 ≤ r) (hr1 : r ≤ 1) :
    40000 ≤ scaled 100000 40000 r ∧ scaled 100000 40000 r ≤ 140000 := by
  have h := scaled_core_bounds isDouble_100000 isDouble_40000 (by norm_num) (by norm_num) hr0 hr1
  have e1 : lit 100000 = 100000 := isDouble_100000
  have e2 : lit 40000 = 40000 := isDouble_40000
  have e3 : roundDouble ((100000 : ℚ) + 40000) = 140000 := by norm_num; exact isDouble_140000
  unfold scaled jsAdd jsMul
  rw [e1, e2]
  rw [e3] at h
  exact h

/-- Risk scores: at least the literal `0.1` and at most `0.9 - 2 ^ (-53)` rounded down, which
is below nine tenths. -/
theorem scaled_risk_bounds {r : ℚ} (hd : IsDouble r) (hr0 : 0 ≤ r) (hr1 : r < 1) :
    lit (1 / 10) ≤ scaled (8 / 10) (1 / 10) r ∧
      scaled (8 / 10) (1 / 10) r ≤ 8106479329266892 / 9007199254740992 := by
  have hmax := isDouble_lt_one hd hr0 hr1
  unfold scaled jsAdd jsMul
  have hS0 : (0 : ℚ) ≤ lit (8 / 10) := by rw [lit_eight_tenths]; norm_num
  have hO0 : (0 : ℚ) ≤ lit (1 / 10) := by rw [lit_one_tenth]; norm_num
  have h1 : 0 ≤ roundDouble (r * lit (8 / 10)) := roundDouble_nonneg (mul_nonneg hr0 hS0)
  have h2 : roundDouble (r * lit (8 / 10)) ≤ 7205759403792793 / 9007199254740992 := by
    have := roundDouble_mono (mul_nonneg hr0 hS0) (mul_le_mul_of_nonneg_right hmax hS0)
    rw [lit_eight_tenths] at this ⊢
    rwa [jsMul_rngMax_lit08] at this
  constructor
  · have hO : roundDouble (lit (1 / 10)) = lit (1 / 10) := by
      have h := isDouble_of_normal (e := -4) (n := 7205759403792794) (by norm_num)
        (by norm_num) (by norm_num)
      rw [lit_one_tenth]
      norm_num at h ⊢
      exact h
    have := roundDouble_mono hO0
      (show lit (1 / 10) ≤ roundDouble (r * lit (8 / 10)) + lit (1 / 10) by linarith)
    rwa [hO] at this
  · have := roundDouble_mono (show 0 ≤ roundDouble (r * lit (8 / 10)) + lit (1 / 10) by linarith)
      (show roundDouble (r * lit (8 / 10)) + lit (1 / 10) ≤
        7205759403792793 / 9007199254740992 + lit (1 / 10) by linarith)
    rw [lit_one_tenth] at this ⊢
    rwa [jsAdd_risk_top] at this

/-! ## Lemmas on `mapDraws` -/

theorem mapDraws_length {α β : Type} (f : α → ℕ → β × ℕ) (l : List α) (k : ℕ) :
    (mapDraws f l k).1.length = l.length := by
  induction l generalizing k with
  | nil => rfl
  | cons a rest ih => simp [mapDraws, ih]

theorem mapDraws_forall {α β : Type} (f : α → ℕ → β × ℕ) (P : β → Prop)
    (hf : ∀ a j, P (f a j).1) (l : List α) (k : ℕ) : ∀ b ∈ (mapDraws f l k).1, P b := by
  induction l generalizing k with
  | nil => intro b hb; simp [mapDraws] at hb
  | cons a rest ih =>
    intro b hb
    simp only [mapDraws, List.mem_cons] at hb
    rcases hb with rfl | hb
    · exact hf a k
    · exact ih _ b hb

theorem validSource_rngMax : ValidSource rngMax := by
  intro k
  refine ⟨isDouble_rngMax, ?_, ?_⟩ <;> unfold rngMax <;> norm_num

theorem validSource_rngHalf : ValidSource rngHalf := by
  intro k
  refine ⟨isDouble_half, ?_, ?_⟩ <;> unfold rngHalf <;> norm_num

/-! ## Mock data generators: shapes and ranges -/

/-- C1: for every list of level labels `generateFunnelData` returns a payload of type
`funnel` whose `y` is the input list in the same order and whose `x` has one entry per label,
the entry at index `i` being `100 - 20 * i`; the function takes no random source at all.  For
`['Junior', 'Mid', 'Senior', 'Lead']` the `x` field is exactly `[100, 80, 60, 40]`. -/
theorem generateFunnelData_spec (levels : List String) :
    (generateFunnelData levels).type = "funnel" ∧
    (generateFunnelData levels).y = levels ∧
    (generateFunnelData levels).x.length = levels.length ∧
    (∀ i : ℕ, (generateFunnelData levels).x[i]? =
      if i < levels.length then some (100 - 20 * (i : ℤ)) else none) ∧
    (generateFunnelData ["Junior", "Mid", "Senior", "Lead"]).x = [100, 80, 60, 40] ∧
    (generateFunnelData ["Junior", "Mid", "Senior", "Lead"]).y =
      ["Junior", "Mid", "Senior", "Lead"] := by
  refine ⟨rfl, rfl, ?_, ?_, ?_, rfl⟩
  · simp [generateFunnelData]
  · intro i
    simp only [generateFunnelData]
    by_cases h : i < levels.length
    · rw [if_pos h, List.getElem?_eq_getElem (by simpa using h), List.getElem_mapIdx]
      congr 1
      ring
    · rw [if_neg h, List.getElem?_eq_none (by simpa using h)]
  · simp [generateFunnelData, List.mapIdx_cons]

/-- C2, as stated, fails: with every draw equal to `1 - 2 ^ (-53)`, the largest binary64 value
below 1, `generatePieData(['A', 'B'])` returns `values = [40, 40]`, because the binary64 sum
`(30 - 2 ^ (-48)) + 10` rounds up to `40`; so not every value is below `40`. -/
theorem generatePieData_reaches_40 :
    ValidSource rngMax ∧
    (generatePieData rngMax 0 ["A", "B"]).1.values = [40, 40] ∧
    ¬ (∀ v ∈ (generatePieData rngMax 0 ["A", "B"]).1.values, 10 ≤ v ∧ v < 40) := by
  have hv : (generatePieData rngMax 0 ["A", "B"]).1.values = [40, 40] := by
    have e1 : lit 30 = 30 := isDouble_30
    have e2 : lit 10 = 10 := isDouble_10
    simp only [generatePieData, mapDraws, draw, scaled, rngMax, e1, e2, jsMul_rngMax_30,
      jsAdd_tie_40]
  refine ⟨validSource_rngMax, hv, ?_⟩
  rw [hv]
  intro h
  have := (h 40 (by simp)).2
  exact lt_irrefl _ this

/-- C2, amended: for every label list and every random source whose draws are binary64 values
in `[0, 1)`, `generatePieData` returns a payload of type `pie` whose `labels` field is the input
list unchanged and whose `values` field has one entry per label, each entry `v` satisfying
`10 ≤ v ≤ 40`. -/
theorem generatePieData_spec (rng : RandomSource) (k : ℕ) (labels : List String)
    (hrng : ValidSource rng) :
    (generatePieData rng k labels).1.type = "pie" ∧
    (generatePieData rng k labels).1.labels = labels ∧
    (generatePieData rng k labels).1.values.length = labels.length ∧
    ∀ v ∈ (generatePieData rng k labels).1.values, 10 ≤ v ∧ v ≤ 40 := by
  refine ⟨rfl, rfl, ?_, ?_⟩
  · exact mapDraws_length _ _ _
  · exact mapDraws_forall _ (fun v => 10 ≤ v ∧ v ≤ 40)
      (fun _ j => scaled_30_10_bounds (hrng j).2.1 (hrng j).2.2.le) labels k

/-- Witness of `generatePieData_spec`: the source whose draws are all one half. -/
theorem generatePieData_spec_witness :
    ValidSource rngHalf ∧
    ((generatePieData rngHalf 0 ["A", "B"]).1.type = "pie" ∧
     (generatePieData rngHalf 0 ["A", "B"]).1.labels = ["A", "B"] ∧
     (generatePieData rngHalf 0 ["A", "B"]).1.values.length = ["A", "B"].length ∧
     ∀ v ∈ (generatePieData rngHalf 0 ["A", "B"]).1.values, 10 ≤ v ∧ v ≤ 40) :=
  ⟨validSource_rngHalf, generatePieData_spec rngHalf 0 ["A", "B"] validSource_rngHalf⟩

/-- C3: for every label list, the empty one included, each label-taking generator is total and
its array-valued fields follow the number `N` of labels: bar, line, pie and funnel payloads
hold arrays of length `N`; bar-with-error holds `x`, `y` and `error_y.array` of length `N`;
grouped-bar holds exactly two traces, each with `x` and `y` of length `N`; scatter holds `N`
traces with one `x` and one `y` value each; heatmap holds one row of `z` per department, each
row as long as `roles`. -/
theorem generators_shape (rng : RandomSource) (k : ℕ) (labels roles : List String) :
    ((generateBarData rng k labels).1.x.length = labels.length ∧
      (generateBarData rng k labels).1.y.length = labels.length) ∧
    ((generateLineData rng k labels).1.x.length = labels.length ∧
      (generateLineData rng k labels).1.y.length = labels.length) ∧
    ((generatePieData rng k labels).1.labels.length = labels.length ∧
      (generatePieData rng k labels).1.values.length = labels.length) ∧
    ((generateFunnelData labels).y.length = labels.length ∧
      (generateFunnelData labels).x.length = labels.length) ∧
    ((generateBarWithErrorData rng k labels).1.x.length = labels.length ∧
      (generateBarWithErrorData rng k labels).1.y.length = labels.length ∧
      (generateBarWithErrorData rng k labels).1.error_y.array.length = labels.length) ∧
    ((generateGroupedBarData rng k labels).1.length = 2 ∧
      ∀ t ∈ (generateGroupedBarData rng k labels).1,
        t.x.length = labels.length ∧ t.y.length = labels.length) ∧
    ((generateScatterData rng k labels).1.length = labels.length ∧
      ∀ t ∈ (generateScatterData rng k labels).1, t.x.length = 1 ∧ t.y.length = 1) ∧
    ((generateHeatmapData rng k labels roles).1.z.length = labels.length ∧
      ∀ row ∈ (generateHeatmapData rng k labels roles).1.z, row.length = roles.length) := by
  refine ⟨⟨rfl, mapDraws_length _ _ _⟩, ⟨rfl, mapDraws_length _ _ _⟩,
    ⟨rfl, mapDraws_length _ _ _⟩, ⟨rfl, by simp [generateFunnelData]⟩,
    ⟨rfl, mapDraws_length _ _ _, mapDraws_length _ _ _⟩, ⟨rfl, ?_⟩,
    ⟨mapDraws_length _ _ _, ?_⟩, ⟨mapDraws_length _ _ _, ?_⟩⟩
  · intro t ht
    simp only [generateGroupedBarData, List.mem_cons, List.mem_singleton, List.not_mem_nil,
      or_false] at ht
    rcases ht with rfl | rfl
    · exact ⟨rfl, mapDraws_length _ _ _⟩
    · exact ⟨rfl, mapDraws_length _ _ _⟩
  · refine mapDraws_forall _ (fun t : ScatterTrace => t.x.length = 1 ∧ t.y.length = 1)
      ?_ labels k
    intro _ _
    exact ⟨rfl, rfl⟩
  · refine mapDraws_forall _ (fun row : List ℚ => row.length = roles.length) ?_ labels k
    intro _ j
    exact mapDraws_length _ roles j

/-- C4: for every random source whose draws are binary64 values in `[0, 1)` and every label
input, each `z` entry of `generateHeatmapData` and each `y` value of `generateScatterData`
lies in `[0.1, 0.9]` (for the exact bounds one tenth and nine tenths and for the binary64
literals alike), and each `x` value of `generateScatterData` lies in `[40000, 140000]`. -/
theorem risk_and_salary_ranges (rng : RandomSource) (k : ℕ) (departments roles : List String)
    (hrng : ValidSource rng) :
    (∀ row ∈ (generateHeatmapData rng k departments roles).1.z, ∀ v ∈ row,
      (1 / 10 ≤ v ∧ v ≤ 9 / 10) ∧ (lit (1 / 10) ≤ v ∧ v ≤ lit (9 / 10))) ∧
    (∀ t ∈ (generateScatterData rng k departments).1,
      (∀ v ∈ t.y, (1 / 10 ≤ v ∧ v ≤ 9 / 10) ∧ (lit (1 / 10) ≤ v ∧ v ≤ lit (9 / 10))) ∧
      (∀ v ∈ t.x, 40000 ≤ v ∧ v ≤ 140000)) := by
  have risk : ∀ j, (1 / 10 ≤ scaled (8 / 10) (1 / 10) (rng j) ∧
      scaled (8 / 10) (1 / 10) (rng j) ≤ 9 / 10) ∧
      (lit (1 / 10) ≤ scaled (8 / 10) (1 / 10) (rng j) ∧
      scaled (8 / 10) (1 / 10) (rng j) ≤ lit (9 / 10)) := by
    intro j
    have h := scaled_risk_bounds (hrng j).1 (hrng j).2.1 (hrng j).2.2
    have h1 := h.1
    rw [lit_one_tenth] at h1
    rw [lit_nine_tenths, lit_one_tenth]
    refine ⟨⟨?_, ?_⟩, h1, ?_⟩
    · exact le_trans (by norm_num) h1
    · exact le_trans h.2 (by norm_num)
    · exact le_trans h.2 (by norm_num)
  constructor
  · exact mapDraws_forall _
      (fun row : List ℚ => ∀ v ∈ row,
        (1 / 10 ≤ v ∧ v ≤ 9 / 10) ∧ (lit (1 / 10) ≤ v ∧ v ≤ lit (9 / 10)))
      (fun _ j => mapDraws_forall _ _ (fun _ i => risk i) roles j) departments k
  · refine mapDraws_forall _
      (fun t : ScatterTrace =>
        (∀ v ∈ t.y, (1 / 10 ≤ v ∧ v ≤ 9 / 10) ∧ (lit (1 / 10) ≤ v ∧ v ≤ lit (9 / 10))) ∧
        (∀ v ∈ t.x, 40000 ≤ v ∧ v ≤ 140000)) (fun _ j => ?_) departments k
    constructor
    · intro v hv
      rw [List.mem_singleton] at hv
      rw [hv]
      exact risk (j + 1)
    · intro v hv
      rw [List.mem_singleton] at hv
      rw [hv]
      exact scaled_salary_bounds (hrng j).2.1 (hrng j).2.2.le

/-- Witness of `risk_and_salary_ranges`: the source whose draws are all one half. -/
theorem risk_and_salary_ranges_witness :
    ValidSource rngHalf ∧
    ((∀ row ∈ (generateHeatmapData rngHalf 0 ["Tech", "Data"] ["Analyst"]).1.z, ∀ v ∈ row,
      (1 / 10 ≤ v ∧ v ≤ 9 / 10) ∧ (lit (1 / 10) ≤ v ∧ v ≤ lit (9 / 10))) ∧
    (∀ t ∈ (generateScatterData rngHalf 0 ["Tech", "Data"]).1,
      (∀ v ∈ t.y, (1 / 10 ≤ v ∧ v ≤ 9 / 10) ∧ (lit (1 / 10) ≤ v ∧ v ≤ lit (9 / 10))) ∧
      (∀ v ∈ t.x, 40000 ≤ v ∧ v ≤ 140000))) :=
  ⟨validSource_rngHalf,
    risk_and_salary_ranges rngHalf 0 ["Tech", "Data"] ["Analyst"] validSource_rngHalf⟩

/-! ## Sidebar toggling -/

theorem mem_classAdd {x c : String} {l : List String} : x ∈ classAdd c l ↔ x = c ∨ x ∈ l := by
  unfold classAdd
  split_ifs with h
  · constructor
    · exact Or.inr
    · rintro (rfl | h')
      · exact h
      · exact h'
  · simp [or_comm]

theorem mem_classRemove {x c : String} {l : List String} :
    x ∈ classRemove c l ↔ x ∈ l ∧ x ≠ c := by
  simp [classRemove]

/-- Removing and then adding a class that was present keeps the set of classes. -/
theorem hasClass_add_remove (c x : String) (l : List String) (h : c ∈ l) :
    hasClass x (some (classAdd c (classRemove c l))) = hasClass x (some l) := by
  simp only [hasClass, decide_eq_decide, mem_classAdd, mem_classRemove]
  constructor
  · rintro (rfl | ⟨h', _⟩)
    · exact h
    · exact h'
  · intro h'
    by_cases hx : x = c
    · exact Or.inl hx
    · exact Or.inr ⟨h', hx⟩

/-- Adding and then removing a class that was absent keeps the set of classes. -/
theorem hasClass_remove_add (c x : String) (l : List String) (h : c ∉ l) :
    hasClass x (some (classRemove c (classAdd c l))) = hasClass x (some l) := by
  simp only [hasClass, decide_eq_decide, mem_classAdd, mem_classRemove]
  constructor
  · rintro ⟨rfl | h', hx⟩
    · exact absurd rfl hx
    · exact h'
  · intro h'
    refine ⟨Or.inr h', ?_⟩
    rintro rfl
    exact h h'

theorem toggle_twice_element (c x : String) (flag : Bool) (el : Option (List String))
    (h : classMirrors c flag el = true) :
    hasClass x
      (Option.map (if flag then classAdd c else classRemove c)
        (Option.map (if !flag then classAdd c else classRemove c) el)) = hasClass x el := by
  cases el with
  | none => rfl
  | some l =>
    cases flag
    · have hc : c ∉ l := by simpa [classMirrors] using h
      simpa using hasClass_remove_add c x l hc
    · have hc : c ∈ l := by simpa [classMirrors] using h
      simpa using hasClass_add_remove c x l hc

/-- C5, as stated, fails: right after `initializeState` in a viewport 1920 wide `sidebarOpen`
is `true`, and on a page whose sidebar markup has no `active` class two calls of
`toggleSidebar` leave `active` on the sidebar and `sidebar-open` on the main content, which
were not there before. -/
theorem toggleSidebar_twice_changes_classes :
    (startWorld 1920 plainDom).state.sidebarOpen = true ∧
    hasClass "active" (startWorld 1920 plainDom).dom.sidebar = false ∧
    hasClass "sidebar-open" (startWorld 1920 plainDom).dom.mainContent = false ∧
    hasClass "active" (toggleSidebar (toggleSidebar (startWorld 1920 plainDom))).dom.sidebar
      = true ∧
    hasClass "sidebar-open"
      (toggleSidebar (toggleSidebar (startWorld 1920 plainDom))).dom.mainContent = true := by
  decide

/-- After `updateSidebarState` the class `c` that it derives from the flag mirrors the flag. -/
theorem classMirrors_after_update (c : String) (flag : Bool) (el : Option (List String)) :
    classMirrors c flag (Option.map (if flag then classAdd c else classRemove c) el) = true := by
  cases el with
  | none => rfl
  | some l =>
    cases flag
    · simp [classMirrors, mem_classRemove]
    · simp [classMirrors, mem_classAdd]

/-- C5, amended: for every dashboard state and every class state of the two elements, two
calls of `toggleSidebar` return `sidebarOpen` to its original value, and afterwards the `active`
class of the sidebar and the `sidebar-open` class of the main content are present exactly if
`sidebarOpen` is true (a missing element imposes nothing).  For each of the two elements: when
before the calls its class is present exactly if `sidebarOpen` is true, the two calls leave
every class of that element, this class among them, as it was. -/
theorem toggleSidebar_twice (w : World) :
    (toggleSidebar (toggleSidebar w)).state.sidebarOpen = w.state.sidebarOpen ∧
    classMirrors "active" (toggleSidebar (toggleSidebar w)).state.sidebarOpen
      (toggleSidebar (toggleSidebar w)).dom.sidebar = true ∧
    classMirrors "sidebar-open" (toggleSidebar (toggleSidebar w)).state.sidebarOpen
      (toggleSidebar (toggleSidebar w)).dom.mainContent = true ∧
    (classMirrors "active" w.state.sidebarOpen w.dom.sidebar = true →
      ∀ x, hasClass x (toggleSidebar (toggleSidebar w)).dom.sidebar =
        hasClass x w.dom.sidebar) ∧
    (classMirrors "sidebar-open" w.state.sidebarOpen w.dom.mainContent = true →
      ∀ x, hasClass x (toggleSidebar (toggleSidebar w)).dom.mainContent =
        hasClass x w.dom.mainContent) := by
  have hflag : (toggleSidebar (toggleSidebar w)).state.sidebarOpen = w.state.sidebarOpen := by
    simp [toggleSidebar, updateSidebarState, emit]
  have hside : (toggleSidebar (toggleSidebar w)).dom.sidebar =
      Option.map (if w.state.sidebarOpen then classAdd "active" else classRemove "active")
        (Option.map (if !w.state.sidebarOpen then classAdd "active" else classRemove "active")
          w.dom.sidebar) := by
    cases hf : w.state.sidebarOpen <;> simp [toggleSidebar, updateSidebarState, emit, hf]
  have hmain : (toggleSidebar (toggleSidebar w)).dom.mainContent =
      Option.map
        (if w.state.sidebarOpen then classAdd "sidebar-open" else classRemove "sidebar-open")
        (Option.map
          (if !w.state.sidebarOpen then classAdd "sidebar-open" else classRemove "sidebar-open")
          w.dom.mainContent) := by
    cases hf : w.state.sidebarOpen <;> simp [toggleSidebar, updateSidebarState, emit, hf]
  refine ⟨hflag, ?_, ?_, ?_, ?_⟩
  · rw [hflag, hside]
    exact classMirrors_after_update "active" w.state.sidebarOpen _
  · rw [hflag, hmain]
    exact classMirrors_after_update "sidebar-open" w.state.sidebarOpen _
  · intro hs x
    rw [hside]
    exact toggle_twice_element "active" x w.state.sidebarOpen w.dom.sidebar hs
  · intro hm x
    rw [hmain]
    exact toggle_twice_element "sidebar-open" x w.state.sidebarOpen w.dom.mainContent hm

/-- Witness of `toggleSidebar_twice`: a viewport 800 wide, where `sidebarOpen` starts `false`
and the page carries neither class, so that both elements keep their classes. -/
theorem toggleSidebar_twice_witness :
    classMirrors "active" (startWorld 800 plainDom).state.sidebarOpen
      (startWorld 800 plainDom).dom.sidebar = true ∧
    classMirrors "sidebar-open" (startWorld 800 plainDom).state.sidebarOpen
      (startWorld 800 plainDom).dom.mainContent = true ∧
    ((toggleSidebar (toggleSidebar (startWorld 800 plainDom))).state.sidebarOpen =
      (startWorld 800 plainDom).state.sidebarOpen ∧
    (∀ x, hasClass x (toggleSidebar (toggleSidebar (startWorld 800 plainDom))).dom.sidebar =
      hasClass x (startWorld 800 plainDom).dom.sidebar) ∧
    (∀ x, hasClass x (toggleSidebar (toggleSidebar (startWorld 800 plainDom))).dom.mainContent =
      hasClass x (startWorld 800 plainDom).dom.mainContent)) :=
  ⟨by decide, by decide, (toggleSidebar_twice (startWorld 800 plainDom)).1,
    (toggleSidebar_twice (startWorld 800 plainDom)).2.2.2.1 (by decide),
    (toggleSidebar_twice (startWorld 800 plainDom)).2.2.2.2 (by decide)⟩

/-! ## Data loader: failures -/

theorem effectsSince_append (w after : World) (evs : List (ℕ × Effect))
    (h : after.log = w.log ++ evs) : effectsSince w after = evs.map Prod.snd := by
  simp [effectsSince, h]

/-- C6: for every prior state, when `fetchDashboardData` fails during `loadDashboardData`, the
cycle leaves `state.dashboardData` (the whole state and the document, in fact) as it was, calls
`showErrorNotification` exactly once, and performs no chart render, KPI update or timestamp
update: its effects are exactly one `console.error` and one `alert`. -/
theorem loadDashboardData_fetch_failure (w : World) (plotly : DrawCall → PlotOutcome)
    (err : String) :
    (loadDashboardData (Except.error err) plotly w).state.dashboardData =
      w.state.dashboardData ∧
    (loadDashboardData (Except.error err) plotly w).state = w.state ∧
    (loadDashboardData (Except.error err) plotly w).dom = w.dom ∧
    effectsSince w (loadDashboardData (Except.error err) plotly w) =
      [Effect.consoleError "Failed to load dashboard data:",
       Effect.alert "Failed to load dashboard data"] ∧
    (effectsSince w (loadDashboardData (Except.error err) plotly w)).countP
      Effect.isNotification = 1 ∧
    (effectsSince w (loadDashboardData (Except.error err) plotly w)).all
      (fun e => !e.isRenderOrUpdate) = true := by
  have hlog : effectsSince w (loadDashboardData (Except.error err) plotly w) =
      [Effect.consoleError "Failed to load dashboard data:",
       Effect.alert "Failed to load dashboard data"] := by
    rw [effectsSince_append w _ [(w.now, Effect.consoleError "Failed to load dashboard data:"),
      (w.now, Effect.alert "Failed to load dashboard data")]]
    · rfl
    · simp [loadDashboardData, loadFailed, showErrorNotification, emit]
  refine ⟨rfl, rfl, rfl, hlog, ?_, ?_⟩
  · rw [hlog]; rfl
  · rw [hlog]; rfl

theorem rendersOnly_refl (w : World) : RendersOnly w w :=
  ⟨rfl, [], by simp, by simp⟩

theorem rendersOnly_trans {a b c : World} (h1 : RendersOnly a b) (h2 : RendersOnly b c) :
    RendersOnly a c := by
  obtain ⟨hs1, e1, hl1, hp1⟩ := h1
  obtain ⟨hs2, e2, hl2, hp2⟩ := h2
  refine ⟨hs2.trans hs1, e1 ++ e2, by rw [hl2, hl1, List.append_assoc], ?_⟩
  intro e he
  rcases List.mem_append.mp he with h | h
  · exact hp1 e h
  · exact hp2 e h

theorem rendersOnly_emit (w : World) (e : Effect) (he : e.isChartRender = true) :
    RendersOnly w (emit e w) := by
  refine ⟨rfl, [(w.now, e)], rfl, ?_⟩
  intro x hx
  rw [List.mem_singleton] at hx
  rw [hx]
  exact he

theorem newPlot_rendersOnly (plotly : DrawCall → PlotOutcome) (call : DrawCall) (w : World) :
    RendersOnly w (newPlot plotly call w).world := by
  have h := rendersOnly_emit w (Effect.newPlot call) rfl
  unfold newPlot
  cases plotly call <;> exact h

theorem plotChart_rendersOnly (plotly : DrawCall → PlotOutcome) (w : World)
    (mk : Charts → ChartConfigs → DrawCall) : RendersOnly w (plotChart plotly w mk).world := by
  unfold plotChart
  cases w.state.dashboardData with
  | none => exact rendersOnly_refl w
  | some d => exact newPlot_rendersOnly plotly _ w

theorem chartAdapters_rendersOnly :
    ∀ a ∈ chartAdapters, ∀ (plotly : DrawCall → PlotOutcome) (w : World),
      RendersOnly w (a plotly w).world := by
  intro a ha plotly w
  simp only [chartAdapters, List.mem_cons, List.mem_singleton, List.not_mem_nil, or_false] at ha
  rcases ha with rfl | rfl | rfl | rfl | rfl | rfl | rfl | rfl | rfl | rfl | rfl | rfl | rfl |
    rfl | rfl <;> exact plotChart_rendersOnly plotly w _

theorem startCharts_rendersOnly (plotly : DrawCall → PlotOutcome)
    (l : List ((DrawCall → PlotOutcome) → World → Completion))
    (hl : ∀ a ∈ l, ∀ (p : DrawCall → PlotOutcome) (w : World), RendersOnly w (a p w).world)
    (w : World) (b : Bool) : RendersOnly w (startCharts plotly l w b).world := by
  induction l generalizing w b with
  | nil =>
    unfold startCharts
    split_ifs <;> exact rendersOnly_refl w
  | cons a rest ih =>
    have ha := hl a (List.mem_cons_self _ _) plotly w
    have hrest := fun x hx => hl x (List.mem_cons_of_mem _ hx)
    unfold startCharts
    cases h : a plotly w with
    | normal w1 =>
      rw [h] at ha
      exact rendersOnly_trans ha (ih hrest w1 b)
    | rejected w1 =>
      rw [h] at ha
      exact rendersOnly_trans ha (ih hrest w1 true)
    | thrown w1 =>
      rw [h] at ha
      exact ha

theorem renderRiskMonitoringTable_rendersOnly (w : World) :
    RendersOnly w (renderRiskMonitoringTable w).world := by
  have h := rendersOnly_emit w Effect.renderRiskMonitoringTable rfl
  unfold renderRiskMonitoringTable
  simp only
  cases hd : (emit Effect.renderRiskMonitoringTable w).state.dashboardData with
  | none => exact h
  | some d =>
    cases ht : (emit Effect.renderRiskMonitoringTable w).dom.riskMonitoringTable with
    | none => exact h
    | some t => exact h

theorem renderAllCharts_rendersOnly (plotly : DrawCall → PlotOutcome) (w : World) :
    RendersOnly w (renderAllCharts plotly w).world := by
  unfold renderAllCharts
  cases w.state.dashboardData with
  | none => exact rendersOnly_refl w
  | some d =>
    have h := startCharts_rendersOnly plotly chartAdapters chartAdapters_rendersOnly w false
    simp only
    cases hs : startCharts plotly chartAdapters w false with
    | normal w1 =>
      rw [hs] at h
      exact rendersOnly_trans h (renderRiskMonitoringTable_rendersOnly w1)
    | rejected w1 => rw [hs] at h; exact h
    | thrown w1 => rw [hs] at h; exact h

/-- What the `catch` block adds to a world reached by chart renders only. -/
theorem loadFailed_after_renders (w w2 : World) (h : RendersOnly w w2) :
    (loadFailed w2).state = w2.state ∧
    (effectsSince w (loadFailed w2)).countP Effect.isNotification = 1 ∧
    (effectsSince w (loadFailed w2)).countP Effect.isConsoleError = 1 ∧
    (effectsSince w (loadFailed w2)).all
      (fun e => !(e == Effect.updateKPIs || e == Effect.updateTimestamp)) = true := by
  obtain ⟨_, evs, hl, hp⟩ := h
  have hlog : (loadFailed w2).log = w.log ++ (evs ++
      [(w2.now, Effect.consoleError "Failed to load dashboard data:"),
       (w2.now, Effect.alert "Failed to load dashboard data")]) := by
    simp [loadFailed, showErrorNotification, emit, hl]
  have hn : ∀ e ∈ evs.map Prod.snd, e.isNotification = false ∧ e.isConsoleError = false ∧
      (e == Effect.updateKPIs || e == Effect.updateTimestamp) = false := by
    intro e he
    obtain ⟨p, hp1, rfl⟩ := List.mem_map.mp he
    have := hp p hp1
    cases hp2 : p.2 <;> rw [hp2] at this <;> first | exact ⟨rfl, rfl, rfl⟩ | cases this
  rw [effectsSince_append w _ _ hlog]
  refine ⟨rfl, ?_, ?_, ?_⟩
  · rw [List.map_append, List.countP_append]
    have : List.countP Effect.isNotification (evs.map Prod.snd) = 0 := by
      rw [List.countP_eq_zero]
      intro e he
      simp [(hn e he).1]
    rw [this]
    rfl
  · rw [List.map_append, List.countP_append]
    have : List.countP Effect.isConsoleError (evs.map Prod.snd) = 0 := by
      rw [List.countP_eq_zero]
      intro e he
      simp [(hn e he).2.1]
    rw [this]
    rfl
  · rw [List.map_append, List.all_append, Bool.and_eq_true]
    constructor
    · rw [List.all_eq_true]
      intro e he
      rw [(hn e he).2.2]
      rfl
    · rfl

/-- C7, as stated, fails: starting without data, when the fetch resolves with `sampleData` and
the first draw call throws, the failure is caught and notified once, yet `state.dashboardData`
is the new `sampleData` and not its value before the cycle. -/
theorem loadDashboardData_render_failure_keeps_new_data :
    cycleFailed (Except.ok sampleData) plotlyThrows (startWorld 1920 plainDom) = true ∧
    (startWorld 1920 plainDom).state.dashboardData = none ∧
    (loadDashboardData (Except.ok sampleData) plotlyThrows
      (startWorld 1920 plainDom)).state.dashboardData = some sampleData ∧
    (loadDashboardData (Except.ok sampleData) plotlyThrows
      (startWorld 1920 plainDom)).state.dashboardData ≠
      (startWorld 1920 plainDom).state.dashboardData := by
  refine ⟨rfl, rfl, rfl, ?_⟩
  intro h
  exact Option.some_ne_none _ h

/-- C7, amended: for every cycle of `loadDashboardData` in which a failure occurs during fetch
or during chart rendering, the failure is caught once (one `console.error`), exactly one user
notification is raised, and no KPI or timestamp update is made; after a fetch failure
`state.dashboardData` equals its value before the cycle, and after a render failure that
follows a successful fetch it is the newly fetched `DashboardData`, which was assigned before
rendering and is not rolled back. -/
theorem loadDashboardData_failure (w : World) (plotly : DrawCall → PlotOutcome)
    (fetched : Except String DashboardData) (hfail : cycleFailed fetched plotly w = true) :
    (effectsSince w (loadDashboardData fetched plotly w)).countP Effect.isNotification = 1 ∧
    (effectsSince w (loadDashboardData fetched plotly w)).countP Effect.isConsoleError = 1 ∧
    (effectsSince w (loadDashboardData fetched plotly w)).all
      (fun e => !(e == Effect.updateKPIs || e == Effect.updateTimestamp)) = true ∧
    (loadDashboardData fetched plotly w).state.dashboardData = dataAfterFailure fetched w := by
  cases fetched with
  | error err =>
    have h := loadFailed_after_renders w w (rendersOnly_refl w)
    exact ⟨h.2.1, h.2.2.1, h.2.2.2, rfl⟩
  | ok response =>
    have hr := renderAllCharts_rendersOnly plotly
      { w with state := { w.state with dashboardData := some response } }
    have hro : ∀ w2, RendersOnly
        { w with state := { w.state with dashboardData := some response } } w2 →
        RendersOnly w { w2 with state := w.state } := by
      rintro w2 ⟨_, evs, hl, hp⟩
      exact ⟨rfl, evs, hl, hp⟩
    have key : ∀ w2, RendersOnly
        { w with state := { w.state with dashboardData := some response } } w2 →
        (effectsSince w (loadFailed w2)).countP Effect.isNotification = 1 ∧
        (effectsSince w (loadFailed w2)).countP Effect.isConsoleError = 1 ∧
        (effectsSince w (loadFailed w2)).all
          (fun e => !(e == Effect.updateKPIs || e == Effect.updateTimestamp)) = true ∧
        (loadFailed w2).state.dashboardData = some response := by
      intro w2 h2
      have h3 := loadFailed_after_renders w { w2 with state := w.state } (hro w2 h2)
      refine ⟨h3.2.1, h3.2.2.1, h3.2.2.2, ?_⟩
      have : (loadFailed w2).state = w2.state := rfl
      rw [this, h2.1]
    unfold cycleFailed at hfail
    unfold loadDashboardData dataAfterFailure
    simp only at hfail ⊢
    cases hc : renderAllCharts plotly
        { w with state := { w.state with dashboardData := some response } } with
    | normal w2 => rw [hc] at hfail; cases hfail
    | rejected w2 =>
      rw [hc] at hr
      exact key w2 hr
    | thrown w2 =>
      rw [hc] at hr
      exact key w2 hr

/-- Witness of `loadDashboardData_failure`: the fetch resolves and every draw call throws. -/
theorem loadDashboardData_failure_witness :
    cycleFailed (Except.ok sampleData) plotlyThrows (startWorld 1920 plainDom) = true ∧
    ((effectsSince (startWorld 1920 plainDom) (loadDashboardData (Except.ok sampleData)
        plotlyThrows (startWorld 1920 plainDom))).countP Effect.isNotification = 1 ∧
    (effectsSince (startWorld 1920 plainDom) (loadDashboardData (Except.ok sampleData)
        plotlyThrows (startWorld 1920 plainDom))).countP Effect.isConsoleError = 1 ∧
    (effectsSince (startWorld 1920 plainDom) (loadDashboardData (Except.ok sampleData)
        plotlyThrows (startWorld 1920 plainDom))).all
      (fun e => !(e == Effect.updateKPIs || e == Effect.updateTimestamp)) = true ∧
    (loadDashboardData (Except.ok sampleData) plotlyThrows
      (startWorld 1920 plainDom)).state.dashboardData =
      dataAfterFailure (Except.ok sampleData) (startWorld 1920 plainDom)) :=
  ⟨rfl, loadDashboardData_failure (startWorld 1920 plainDom) plotlyThrows (Except.ok sampleData)
    rfl⟩

/-! ## Debounced resize -/

/-- A `resize` event that arrives while the debounce timer is pending only restarts the timer
and records the new width. -/
theorem resizeEvent_pending (w : World) (due : ℕ) (e : ℕ × ℕ) (hp : w.resizeTimeout = some due)
    (he : e.1 < due) :
    resizeEvent w e =
      { w with now := e.1, innerWidth := e.2, resizeTimeout := some (e.1 + 250) } := by
  simp [resizeEvent, onResize, advance, hp, Nat.not_le.mpr he]

/-- A `resize` event that arrives while no debounce timer is pending starts the timer. -/
theorem resizeEvent_idle (w : World) (e : ℕ × ℕ) (hp : w.resizeTimeout = none) :
    resizeEvent w e =
      { w with now := e.1, innerWidth := e.2, resizeTimeout := some (e.1 + 250) } := by
  simp [resizeEvent, onResize, advance, hp]

/-- Through the rest of a burst the timer never fires: the trace, the controller state and
the document stay as they are, and the timer ends up due 250 ms after the last event. -/
theorem foldl_resizeEvent_burst (rest : List (ℕ × ℕ)) (a : ℕ × ℕ) (w : World)
    (hp : w.resizeTimeout = some (a.1 + 250)) (hw : w.innerWidth = a.2)
    (hgaps : List.Chain (fun x y : ℕ × ℕ => x.1 ≤ y.1 ∧ y.1 < x.1 + 250) a rest) :
    (rest.foldl resizeEvent w).log = w.log ∧
    (rest.foldl resizeEvent w).state = w.state ∧
    (rest.foldl resizeEvent w).dom = w.dom ∧
    (rest.foldl resizeEvent w).resizeTimeout =
      some (((a :: rest).getLast (List.cons_ne_nil a rest)).1 + 250) ∧
    (rest.foldl resizeEvent w).innerWidth =
      ((a :: rest).getLast (List.cons_ne_nil a rest)).2 := by
  induction rest generalizing a w with
  | nil => exact ⟨rfl, rfl, rfl, hp, hw⟩
  | cons b rest ih =>
    rw [List.chain_cons] at hgaps
    obtain ⟨hab, hrest⟩ := hgaps
    have hstep := resizeEvent_pending w (a.1 + 250) b hp hab.2
    have h := ih b (resizeEvent w b) (by rw [hstep]) (by rw [hstep]) hrest
    rw [List.foldl_cons, List.getLast_cons (List.cons_ne_nil b rest)]
    refine ⟨?_, ?_, ?_, h.2.2.2.1, h.2.2.2.2⟩
    · rw [h.1, hstep]
    · rw [h.2.1, hstep]
    · rw [h.2.2.1, hstep]

/-- C8: in the model of the resize listener with its 250 ms timer, take any non-empty burst of
`resize` events in which each event arrives less than 250 ms after the one before, every
viewport width being below 1200 and the sidebar being open, with no earlier timer due by the
first event.  Once the clock has passed the last event by 250 ms, the effects of the burst are
exactly: `handleResize` ran once, 250 ms after the last event, and closed the sidebar once
(followed by the redraw requests); so `handleResize` and `closeSidebar` each ran one time, not
once per event, and the sidebar is closed. -/
theorem resize_burst_closes_sidebar_once (w : World) (first : ℕ × ℕ) (rest : List (ℕ × ℕ))
    (stop : ℕ) (hopen : w.state.sidebarOpen = true)
    (hquiet : ∀ due, w.resizeTimeout = some due → first.1 < due)
    (hgaps : List.Chain (fun x y : ℕ × ℕ => x.1 ≤ y.1 ∧ y.1 < x.1 + 250) first rest)
    (hwidth : ∀ e ∈ first :: rest, e.2 < 1200)
    (hstop : ((first :: rest).getLast (List.cons_ne_nil first rest)).1 + 250 ≤ stop) :
    (runBurst (first :: rest) stop w).log = w.log ++
      [(((first :: rest).getLast (List.cons_ne_nil first rest)).1 + 250, Effect.handleResize),
       (((first :: rest).getLast (List.cons_ne_nil first rest)).1 + 250, Effect.closeSidebar),
       (((first :: rest).getLast (List.cons_ne_nil first rest)).1 + 250,
          Effect.scheduleRedraw 300),
       (((first :: rest).getLast (List.cons_ne_nil first rest)).1 + 250, Effect.redrawCharts)] ∧
    (effectsSince w (runBurst (first :: rest) stop w)).count Effect.handleResize = 1 ∧
    (effectsSince w (runBurst (first :: rest) stop w)).count Effect.closeSidebar = 1 ∧
    (runBurst (first :: rest) stop w).state.sidebarOpen = false ∧
    (runBurst (first :: rest) stop w).resizeTimeout = none := by
  have hfirst : resizeEvent w first =
      { w with now := first.1, innerWidth := first.2, resizeTimeout := some (first.1 + 250) } := by
    cases hr : w.resizeTimeout with
    | none => exact resizeEvent_idle w first hr
    | some due => exact resizeEvent_pending w due first hr (hquiet due hr)
  have h := foldl_resizeEvent_burst rest first (resizeEvent w first) (by rw [hfirst])
    (by rw [hfirst]) hgaps
  have hlast := hwidth _ (List.getLast_mem (List.cons_ne_nil first rest))
  set last := (first :: rest).getLast (List.cons_ne_nil first rest) with hl
  set w1 := rest.foldl resizeEvent (resizeEvent w first) with hw1
  obtain ⟨h1, h2, h3, h4, h5⟩ := h
  have hlog1 : w1.log = w.log := by rw [h1, hfirst]
  have hst1 : w1.state.sidebarOpen = true := by rw [h2, hfirst]; exact hopen
  have hrun : runBurst (first :: rest) stop w = advance stop w1 := rfl
  have hlog : (runBurst (first :: rest) stop w).log = w.log ++
      [(last.1 + 250, Effect.handleResize), (last.1 + 250, Effect.closeSidebar),
       (last.1 + 250, Effect.scheduleRedraw 300), (last.1 + 250, Effect.redrawCharts)] := by
    rw [hrun]
    simp [advance, h4, hstop, resizeTimerCallback, handleResize, closeSidebar,
      updateSidebarState, emit, h5, hlast, hst1, hlog1]
  refine ⟨hlog, ?_, ?_, ?_, ?_⟩
  · rw [effectsSince_append w _ _ hlog]
    simp only [List.map_cons, List.map_nil]
    decide
  · rw [effectsSince_append w _ _ hlog]
    simp only [List.map_cons, List.map_nil]
    decide
  · rw [hrun]
    simp [advance, h4, hstop, resizeTimerCallback, handleResize, closeSidebar,
      updateSidebarState, emit, h5, hlast, hst1]
  · rw [hrun]
    simp [advance, h4, hstop, resizeTimerCallback, handleResize, closeSidebar,
      updateSidebarState, emit, h5, hlast, hst1]

/-- Witness of `resize_burst_closes_sidebar_once`: three events 100 ms apart in a viewport
that shrank from 1920 to below 1200. -/
theorem resize_burst_closes_sidebar_once_witness :
    (runBurst [(1000, 1100), (1100, 1000), (1200, 900)] 2000 (startWorld 1920 plainDom)).log =
      [(1450, Effect.handleResize), (1450, Effect.closeSidebar),
       (1450, Effect.scheduleRedraw 300), (1450, Effect.redrawCharts)] ∧
    (runBurst [(1000, 1100), (1100, 1000), (1200, 900)] 2000
      (startWorld 1920 plainDom)).state.sidebarOpen = false :=
  have h := resize_burst_closes_sidebar_once (startWorld 1920 plainDom) (1000, 1100)
    [(1100, 1000), (1200, 900)] 2000 (by decide) (by intro due hd; cases hd)
    (by simp) (by decide) (by decide)
  ⟨h.1, h.2.2.2.1⟩

/-! ## Chart renderer adapters: repeated invocation -/

theorem plots_replace_twice (id : String) (call : DrawCall) (plots : List (String × DrawCall)) :
    ((id, call) :: plots.filter (fun p => p.1 ≠ id)).filter (fun p => p.1 ≠ id) =
      plots.filter (fun p => p.1 ≠ id) := by
  simp [List.filter_cons, List.filter_filter]

/-- One call of a charting adapter, field by field. -/
theorem invoke_plotChart (plotly : DrawCall → PlotOutcome) (mk : Charts → ChartConfigs → DrawCall)
    (w : World) (d : DashboardData) (hd : w.state.dashboardData = some d) :
    (invoke (fun v => plotChart plotly v mk) w).state = w.state ∧
    (invoke (fun v => plotChart plotly v mk) w).chartConfigs = w.chartConfigs ∧
    (invoke (fun v => plotChart plotly v mk) w).now = w.now ∧
    (invoke (fun v => plotChart plotly v mk) w).log =
      w.log ++ [(w.now, Effect.newPlot (mk d.charts w.chartConfigs))] ∧
    (invoke (fun v => plotChart plotly v mk) w).dom =
      (if plotly (mk d.charts w.chartConfigs) = PlotOutcome.drawn then
        { w.dom with
          plots := ((mk d.charts w.chartConfigs).containerId, mk d.charts w.chartConfigs) ::
            w.dom.plots.filter (fun p => p.1 ≠ (mk d.charts w.chartConfigs).containerId) }
      else w.dom) := by
  have e : plotChart plotly w mk = newPlot plotly (mk d.charts w.chartConfigs) w := by
    unfold plotChart
    rw [hd]
  simp only [invoke, e, newPlot]
  cases plotly (mk d.charts w.chartConfigs) <;> simp [Completion.world, emit]

theorem plotChart_invokeTimes (plotly : DrawCall → PlotOutcome)
    (mk : Charts → ChartConfigs → DrawCall) (w : World) (d : DashboardData)
    (hd : w.state.dashboardData = some d) (n : ℕ) :
    (invokeTimes (n + 1) (fun v => plotChart plotly v mk) w).state = w.state ∧
    (invokeTimes (n + 1) (fun v => plotChart plotly v mk) w).chartConfigs = w.chartConfigs ∧
    (invokeTimes (n + 1) (fun v => plotChart plotly v mk) w).now = w.now ∧
    (invokeTimes (n + 1) (fun v => plotChart plotly v mk) w).log =
      w.log ++ List.replicate (n + 1) (w.now, Effect.newPlot (mk d.charts w.chartConfigs)) ∧
    (invokeTimes (n + 1) (fun v => plotChart plotly v mk) w).dom =
      (invoke (fun v => plotChart plotly v mk) w).dom := by
  induction n with
  | zero =>
    obtain ⟨h1, h2, h3, h4, _⟩ := invoke_plotChart plotly mk w d hd
    exact ⟨h1, h2, h3, h4, rfl⟩
  | succ n ih =>
    obtain ⟨i1, i2, i3, i4, i5⟩ := ih
    have hstep : invokeTimes (n + 1 + 1) (fun v => plotChart plotly v mk) w =
        invoke (fun v => plotChart plotly v mk)
          (invokeTimes (n + 1) (fun v => plotChart plotly v mk) w) := by
      unfold invokeTimes
      rw [Function.iterate_succ_apply']
    obtain ⟨h1, h2, h3, h4, h5⟩ := invoke_plotChart plotly mk
      (invokeTimes (n + 1) (fun v => plotChart plotly v mk) w) d (by rw [i1]; exact hd)
    obtain ⟨_, _, _, _, g5⟩ := invoke_plotChart plotly mk w d hd
    rw [hstep]
    refine ⟨h1.trans i1, h2.trans i2, h3.trans i3, ?_, ?_⟩
    · rw [h4, i4, i3, i2, List.append_assoc, ← List.replicate_succ']
    · rw [h5, i2, i5, g5]
      split_ifs with hdrawn
      · simp only [plots_replace_twice]
      · rfl

/-- One call of the table renderer, field by field. -/
theorem invoke_renderRiskMonitoringTable (w : World) (d : DashboardData)
    (hd : w.state.dashboardData = some d) :
    (invoke renderRiskMonitoringTable w).state = w.state ∧
    (invoke renderRiskMonitoringTable w).dom =
      { w.dom with
        riskMonitoringTable :=
          w.dom.riskMonitoringTable.map (fun _ => riskTableHtml d.charts.riskMonitoring) } := by
  unfold invoke renderRiskMonitoringTable
  simp only [emit, hd]
  cases ht : w.dom.riskMonitoringTable with
  | none =>
    simp only [Completion.world, Option.map_none', true_and]
    rw [← ht]
  | some t => simp [Completion.world]

theorem renderRiskMonitoringTable_invokeTimes (w : World) (d : DashboardData)
    (hd : w.state.dashboardData = some d) (n : ℕ) :
    (invokeTimes (n + 1) renderRiskMonitoringTable w).state = w.state ∧
    (invokeTimes (n + 1) renderRiskMonitoringTable w).dom =
      (invoke renderRiskMonitoringTable w).dom := by
  induction n with
  | zero => exact ⟨(invoke_renderRiskMonitoringTable w d hd).1, rfl⟩
  | succ n ih =>
    obtain ⟨i1, i2⟩ := ih
    have hstep : invokeTimes (n + 1 + 1) renderRiskMonitoringTable w =
        invoke renderRiskMonitoringTable (invokeTimes (n + 1) renderRiskMonitoringTable w) := by
      unfold invokeTimes
      rw [Function.iterate_succ_apply']
    obtain ⟨h1, h2⟩ := invoke_renderRiskMonitoringTable
      (invokeTimes (n + 1) renderRiskMonitoringTable w) d (by rw [i1]; exact hd)
    obtain ⟨_, g2⟩ := invoke_renderRiskMonitoringTable w d hd
    rw [hstep]
    refine ⟨h1.trans i1, ?_⟩
    rw [h2, i2, g2]
    cases w.dom.riskMonitoringTable <;> rfl

/-- C9: for every `DashboardData` held by the controller and every starting document, `n ≥ 1`
invocations of a chart renderer adapter end in the same document and controller state as one
invocation: each of the fifteen charting adapters issues, every time, one and the same draw
call (container id, data, layout, config), and `renderRiskMonitoringTable` leaves the
`risk-monitoring-table` container, when the page has one, with the HTML built from the rows,
after one invocation as after `n`: it replaces and never accumulates. -/
theorem chart_renderers_idempotent (plotly : DrawCall → PlotOutcome) (w : World)
    (d : DashboardData) (hd : w.state.dashboardData = some d) :
    (∀ a ∈ chartAdapters, ∃ call : DrawCall, ∀ n, 1 ≤ n →
      (invokeTimes n (a plotly) w).dom = (invoke (a plotly) w).dom ∧
      (invokeTimes n (a plotly) w).state = w.state ∧
      effectsSince w (invokeTimes n (a plotly) w) = List.replicate n (Effect.newPlot call)) ∧
    (∀ n, 1 ≤ n →
      (invokeTimes n renderRiskMonitoringTable w).dom =
        (invoke renderRiskMonitoringTable w).dom ∧
      (invokeTimes n renderRiskMonitoringTable w).state = w.state ∧
      (invokeTimes n renderRiskMonitoringTable w).dom.riskMonitoringTable =
        w.dom.riskMonitoringTable.map (fun _ => riskTableHtml d.charts.riskMonitoring)) := by
  have plot : ∀ mk : Charts → ChartConfigs → DrawCall, ∃ call : DrawCall, ∀ n, 1 ≤ n →
      (invokeTimes n (fun v => plotChart plotly v mk) w).dom =
        (invoke (fun v => plotChart plotly v mk) w).dom ∧
      (invokeTimes n (fun v => plotChart plotly v mk) w).state = w.state ∧
      effectsSince w (invokeTimes n (fun v => plotChart plotly v mk) w) =
        List.replicate n (Effect.newPlot call) := by
    intro mk
    refine ⟨mk d.charts w.chartConfigs, ?_⟩
    intro n hn
    obtain ⟨m, rfl⟩ : ∃ m, n = m + 1 := ⟨n - 1, by omega⟩
    obtain ⟨h1, _, _, h4, h5⟩ := plotChart_invokeTimes plotly mk w d hd m
    refine ⟨h5, h1, ?_⟩
    rw [effectsSince_append w _ _ h4, List.map_replicate]
  constructor
  · intro a ha
    simp only [chartAdapters, List.mem_cons, List.mem_singleton, List.not_mem_nil, or_false]
      at ha
    rcases ha with rfl | rfl | rfl | rfl | rfl | rfl | rfl | rfl | rfl | rfl | rfl | rfl | rfl |
      rfl | rfl <;> exact plot _
  · intro n hn
    obtain ⟨m, rfl⟩ : ∃ m, n = m + 1 := ⟨n - 1, by omega⟩
    obtain ⟨h1, h2⟩ := renderRiskMonitoringTable_invokeTimes w d hd m
    refine ⟨h2, h1, ?_⟩
    rw [h2, (invoke_renderRiskMonitoringTable w d hd).2]

/-- Witness of `chart_renderers_idempotent`: the controller holding `sampleData`, with a
charting library that draws. -/
theorem chart_renderers_idempotent_witness :
    loadedWorld.state.dashboardData = some sampleData ∧
    (invokeTimes 3 renderRiskMonitoringTable loadedWorld).dom =
      (invoke renderRiskMonitoringTable loadedWorld).dom ∧
    (invokeTimes 3 renderRiskMonitoringTable loadedWorld).dom.riskMonitoringTable =
      loadedWorld.dom.riskMonitoringTable.map
        (fun _ => riskTableHtml sampleData.charts.riskMonitoring) :=
  have h := (chart_renderers_idempotent plotlyDraws loadedWorld sampleData rfl).2 3 (by decide)
  ⟨rfl, h.1, h.2.2⟩

/-! ## Scroll-spy against navigation -/

/-- C10 at a failing input: the navigation entry with `data-section="riskAnalysis"`.
`navigateToSection` scrolls to the element `risk-analysis`, which the page has; when that
element becomes visible the scroll-spy derives `riskanalysis`, finds no entry, clears `active`
on every link and leaves `currentSection` at `executive`.  For the entry `executive`, whose
identifier has no capital, the same callback does mark the entry. -/
theorem scrollSpy_misses_camelCase_section :
    sectionElementId "riskAnalysis" = "risk-analysis" ∧
    sectionElementId "riskAnalysis" ∈ (startWorld 1920 plainDom).dom.elementIds ∧
    scrollSpySectionId (sectionElementId "riskAnalysis") = "riskanalysis" ∧
    scrollSpySectionId (sectionElementId "riskAnalysis") ≠ "riskAnalysis" ∧
    (scrollSpy [{ targetId := sectionElementId "riskAnalysis", isIntersecting := true }]
      (startWorld 1920 plainDom)).state.currentSection = "executive" ∧
    (scrollSpy [{ targetId := sectionElementId "riskAnalysis", isIntersecting := true }]
      (startWorld 1920 plainDom)).dom.navLinks =
      [{ dataSection := "executive", classList := ["sidebar-link"] },
       { dataSection := "riskAnalysis", classList := ["sidebar-link"] }] ∧
    (scrollSpy [{ targetId := sectionElementId "executive", isIntersecting := true }]
      (startWorld 1920 plainDom)).dom.navLinks =
      [{ dataSection := "executive", classList := ["sidebar-link", "active"] },
       { dataSection := "riskAnalysis", classList := ["sidebar-link"] }] := by
  decide

theorem hyphenateUpper_of_lower (cs : List Char) (h : ∀ c ∈ cs, ¬ ('A' ≤ c ∧ c ≤ 'Z')) :
    hyphenateUpper cs = cs := by
  induction cs with
  | nil => rfl
  | cons c cs ih =>
    unfold hyphenateUpper
    rw [if_neg (h c (List.mem_cons_self _ _)), ih (fun x hx => h x (List.mem_cons_of_mem _ hx))]

theorem toLower_of_lower (c : Char) (h : ¬ ('A' ≤ c ∧ c ≤ 'Z')) : c.toLower = c := by
  unfold Char.toLower
  have h2 : ¬ (c.toNat ≥ 65 ∧ c.toNat ≤ 90) := by
    intro hc
    exact h ⟨hc.1, hc.2⟩
  simp only [if_neg h2]

theorem toLowerCase_of_lower (cs : List Char) (h : ∀ c ∈ cs, ¬ ('A' ≤ c ∧ c ≤ 'Z')) :
    toLowerCase cs = cs := by
  unfold toLowerCase
  induction cs with
  | nil => rfl
  | cons c cs ih =>
    rw [List.map_cons, toLower_of_lower c (h c (List.mem_cons_self _ _)),
      ih (fun x hx => h x (List.mem_cons_of_mem _ hx))]

theorem removeFirstHyphen_of_none (cs : List Char) (h : ∀ c ∈ cs, c ≠ '-') :
    removeFirstHyphen cs = cs := by
  induction cs with
  | nil => rfl
  | cons c cs ih =>
    unfold removeFirstHyphen
    rw [if_neg (h c (List.mem_cons_self _ _)), ih (fun x hx => h x (List.mem_cons_of_mem _ hx))]

/-- The scroll-spy recovers a section identifier that has no capital `A`..`Z` and no hyphen. -/
theorem scrollSpySectionId_sectionElementId (s : String)
    (hu : ∀ c ∈ s.toList, ¬ ('A' ≤ c ∧ c ≤ 'Z')) (hh : ∀ c ∈ s.toList, c ≠ '-') :
    scrollSpySectionId (sectionElementId s) = s := by
  unfold scrollSpySectionId sectionElementId
  rw [hyphenateUpper_of_lower _ hu, toLowerCase_of_lower _ hu]
  show String.mk (removeFirstHyphen s.toList) = s
  rw [removeFirstHyphen_of_none _ hh]
  rfl

/-! ## Time series generator: lengths -/

/-- C12, as stated, fails: for the month count `2 ^ 32` the call returns nothing, because
`Array.from({length: 4294967296}, ..)` throws a `RangeError`, however long an array the engine
could build; no `y` of length `2 ^ 32` comes back. -/
theorem generateTimeSeriesData_throws_at_two_pow_32 :
    generateTimeSeriesData (2 ^ 32) rngHalf 0 (2 ^ 32) = TimeSeriesResult.rangeError ∧
    ¬ ∃ (payload : LineData) (draws : ℕ),
      generateTimeSeriesData (2 ^ 32) rngHalf 0 (2 ^ 32) =
        TimeSeriesResult.returned payload draws ∧ payload.y.length = 2 ^ 32 := by
  have h : generateTimeSeriesData (2 ^ 32) rngHalf 0 (2 ^ 32) = TimeSeriesResult.rangeError := by
    unfold generateTimeSeriesData
    simp
  refine ⟨h, ?_⟩
  rintro ⟨payload, draws, hp, _⟩
  rw [h] at hp
  cases hp

/-- C12, amended: for every integer month count `N` with `0 ≤ N < 2 ^ 32` that does not
exceed the longest array the engine can build, `generateTimeSeriesData(N)` returns `y` of
length `N` and `x` equal to the first `min(N, 12)` month names in calendar order starting at
`Jan`; hence `x` and `y` have equal length exactly when `N ≤ 12`, and for `N > 12` the field
`x` has 12 entries while `y` has `N`.  For every `N ≥ 2 ^ 32` the call throws a `RangeError`
and returns nothing; for `N` below `2 ^ 32` and beyond what the engine can build, it runs out
of memory and returns nothing. -/
theorem generateTimeSeriesData_spec (capacity : ℕ) (rng : RandomSource) (k N : ℕ) :
    (N < 2 ^ 32 → N ≤ capacity →
      ∃ (payload : LineData) (draws : ℕ),
        generateTimeSeriesData capacity rng k N = TimeSeriesResult.returned payload draws ∧
        payload.y.length = N ∧
        payload.x = monthNames.take (min N 12) ∧
        payload.x.length = min N 12 ∧
        (payload.x.length = payload.y.length ↔ N ≤ 12) ∧
        (12 < N → payload.x.length = 12 ∧ payload.y.length = N)) ∧
    (2 ^ 32 ≤ N → generateTimeSeriesData capacity rng k N = TimeSeriesResult.rangeError) ∧
    (N < 2 ^ 32 → capacity < N →
      generateTimeSeriesData capacity rng k N = TimeSeriesResult.outOfMemory) ∧
    monthNames =
      ["Jan", "Feb", "Mar", "Apr", "May", "Jun", "Jul", "Aug", "Sep", "Oct", "Nov", "Dec"] := by
  have hlen : monthNames.length = 12 := rfl
  have hx : monthNames.take N = monthNames.take (min N 12) := by
    rcases Nat.le_total N 12 with h | h
    · rw [Nat.min_eq_left h]
    · rw [Nat.min_eq_right h, List.take_of_length_le (by rw [hlen]; exact h),
        List.take_of_length_le (by rw [hlen])]
  have hxl : (monthNames.take N).length = min N 12 := by
    rw [List.length_take, hlen]
  have hyl : (mapDraws (draw rng 10 10) (List.range N) k).1.length = N := by
    rw [mapDraws_length, List.length_range]
  refine ⟨?_, ?_, ?_, rfl⟩
  · intro hN hcap
    unfold generateTimeSeriesData
    simp only [if_neg (Nat.not_le.mpr hN), if_neg (Nat.not_lt.mpr hcap)]
    refine ⟨_, _, rfl, hyl, hx, hxl, ?_, ?_⟩
    · show (monthNames.take N).length =
        (mapDraws (draw rng 10 10) (List.range N) k).1.length ↔ _
      rw [hxl, hyl]
      omega
    · intro h
      refine ⟨?_, hyl⟩
      show (monthNames.take N).length = 12
      rw [hxl]
      omega
  · intro hN
    unfold generateTimeSeriesData
    simp only [if_pos hN]
  · intro hN hcap
    unfold generateTimeSeriesData
    simp only [if_neg (Nat.not_le.mpr hN), if_pos hcap]

/-- Witness of `generateTimeSeriesData_spec`: fourteen months on an engine that can build an
array of a thousand entries. -/
theorem generateTimeSeriesData_spec_witness :
    14 < 2 ^ 32 ∧ 14 ≤ 1000 ∧
    ∃ (payload : LineData) (draws : ℕ),
      generateTimeSeriesData 1000 rngHalf 0 14 = TimeSeriesResult.returned payload draws ∧
      payload.y.length = 14 ∧
      payload.x = monthNames.take (min 14 12) ∧
      payload.x.length = min 14 12 ∧
      (payload.x.length = payload.y.length ↔ 14 ≤ 12) ∧
      (12 < 14 → payload.x.length = 12 ∧ payload.y.length = 14) :=
  ⟨by norm_num, by norm_num,
    (generateTimeSeriesData_spec 1000 rngHalf 0 14).1 (by norm_num) (by norm_num)⟩

/-! ## Periodic refresh -/

theorem keepsTiming_refl (w : World) : KeepsTiming w w := ⟨rfl, rfl⟩

theorem keepsTiming_trans {a b c : World} (h1 : KeepsTiming a b) (h2 : KeepsTiming b c) :
    KeepsTiming a c :=
  ⟨h2.1.trans h1.1, h2.2.trans h1.2⟩

theorem keepsTiming_of_state {w after : World} (h : after.state = w.state) :
    KeepsTiming w after := by
  unfold KeepsTiming
  rw [h]
  exact ⟨rfl, rfl⟩

theorem toggleSidebar_keepsTiming (w : World) : KeepsTiming w (toggleSidebar w) := ⟨rfl, rfl⟩

theorem closeSidebar_keepsTiming (w : World) : KeepsTiming w (closeSidebar w) := ⟨rfl, rfl⟩

theorem navigateToSection_keepsTiming (sectionId : String) (w : World) :
    KeepsTiming w (navigateToSection sectionId w) := by
  unfold navigateToSection
  simp only
  split_ifs
  · exact keepsTiming_trans (keepsTiming_of_state rfl) (closeSidebar_keepsTiming _)
  · exact keepsTiming_of_state rfl
  · exact closeSidebar_keepsTiming _
  · exact keepsTiming_refl w

theorem handleResize_keepsTiming (w : World) : KeepsTiming w (handleResize w) := by
  unfold handleResize
  simp only
  split_ifs
  · exact keepsTiming_trans (keepsTiming_of_state rfl) (closeSidebar_keepsTiming _)
  · exact keepsTiming_of_state rfl

theorem advance_keepsTiming (t : ℕ) (w : World) : KeepsTiming w (advance t w) := by
  unfold advance
  cases w.resizeTimeout with
  | none => exact keepsTiming_of_state rfl
  | some due =>
    simp only
    split_ifs
    · have h := handleResize_keepsTiming { w with now := due, resizeTimeout := none }
      exact ⟨h.1, h.2⟩
    · exact keepsTiming_of_state rfl

theorem resizeEvent_keepsTiming (w : World) (e : ℕ × ℕ) : KeepsTiming w (resizeEvent w e) := by
  have h := advance_keepsTiming e.1 w
  exact ⟨h.1, h.2⟩

theorem scrollSpyEntry_keepsTiming (w : World) (entry : IntersectionEntry) :
    KeepsTiming w (scrollSpyEntry w entry) := by
  unfold scrollSpyEntry
  split_ifs
  · simp only
    cases w.dom.navLinks.find?
        (fun l => l.dataSection = scrollSpySectionId entry.targetId) with
    | none => exact ⟨rfl, rfl⟩
    | some l => exact ⟨rfl, rfl⟩
  · exact keepsTiming_refl w

theorem scrollSpy_keepsTiming (entries : List IntersectionEntry) (w : World) :
    KeepsTiming w (scrollSpy entries w) := by
  unfold scrollSpy
  induction entries generalizing w with
  | nil => exact keepsTiming_refl w
  | cons entry rest ih =>
    rw [List.foldl_cons]
    exact keepsTiming_trans (scrollSpyEntry_keepsTiming w entry) (ih _)

theorem updateKPIs_state (w : World) : (updateKPIs w).world.state = w.state := by
  unfold updateKPIs
  simp only
  cases (emit Effect.updateKPIs w).state.dashboardData with
  | none => rfl
  | some d =>
    cases (emit Effect.updateKPIs w).dom.financialKpis with
    | none => rfl
    | some c => rfl

theorem updateTimestamp_state (w : World) : (updateTimestamp w).state = w.state := by
  unfold updateTimestamp
  simp only
  cases (emit Effect.updateTimestamp w).dom.lastUpdatedTime with
  | none => rfl
  | some c => rfl

theorem loadDashboardData_keepsTiming (fetched : Except String DashboardData)
    (plotly : DrawCall → PlotOutcome) (w : World) :
    KeepsTiming w (loadDashboardData fetched plotly w) := by
  cases fetched with
  | error err => exact ⟨rfl, rfl⟩
  | ok response =>
    have hr := (renderAllCharts_rendersOnly plotly
      { w with state := { w.state with dashboardData := some response } }).1
    have base : ∀ w2 : World,
        w2.state = { w.state with dashboardData := some response } → KeepsTiming w w2 := by
      intro w2 h2
      unfold KeepsTiming
      rw [h2]
      exact ⟨rfl, rfl⟩
    unfold loadDashboardData
    simp only
    cases hc : renderAllCharts plotly
        { w with state := { w.state with dashboardData := some response } } with
    | normal w2 =>
      rw [hc] at hr
      have hk := updateKPIs_state w2
      simp only
      cases hu : updateKPIs w2 with
      | normal w3 =>
        rw [hu] at hk
        exact base _ ((updateTimestamp_state w3).trans (hk.trans hr))
      | rejected w3 =>
        rw [hu] at hk
        exact base _ (hk.trans hr)
      | thrown w3 =>
        rw [hu] at hk
        exact base _ (hk.trans hr)
    | rejected w2 =>
      rw [hc] at hr
      exact base _ hr
    | thrown w2 =>
      rw [hc] at hr
      exact base _ hr

theorem timerInvariant_of_world {p : Page} {w : World} (h : TimerInvariant p)
    (hk : KeepsTiming p.world w) : TimerInvariant { p with world := w } :=
  ⟨hk.1.trans h.1, hk.2.trans h.2.1, h.2.2⟩

theorem startRealTimeUpdates_invariant {p : Page} (h : TimerInvariant p) :
    TimerInvariant (startRealTimeUpdates p) := by
  unfold startRealTimeUpdates
  split_ifs
  · exact h
  · refine ⟨h.1, h.2.1, ?_⟩
    intro t ht
    rcases List.mem_append.mp ht with ht | ht
    · exact h.2.2 t ht
    · rw [List.mem_singleton] at ht
      rw [ht]
      exact h.2.1

theorem step_invariant (e : Event) {p : Page} (h : TimerInvariant p) :
    TimerInvariant (step e p) := by
  cases e with
  | domContentLoaded =>
    exact startRealTimeUpdates_invariant
      (timerInvariant_of_world h (keepsTiming_of_state (updateTimestamp_state p.world)))
  | sidebarToggleClick => exact timerInvariant_of_world h (toggleSidebar_keepsTiming _)
  | navLinkClick sectionId => exact timerInvariant_of_world h (navigateToSection_keepsTiming _ _)
  | keyToggleSidebar => exact timerInvariant_of_world h (toggleSidebar_keepsTiming _)
  | load fetched plotly => exact timerInvariant_of_world h (loadDashboardData_keepsTiming _ _ _)
  | resize time width => exact timerInvariant_of_world h (resizeEvent_keepsTiming _ _)
  | clock time => exact timerInvariant_of_world h (advance_keepsTiming _ _)
  | intersection entries => exact timerInvariant_of_world h (scrollSpy_keepsTiming _ _)
  | intervalTick i fetched plotly =>
    unfold step
    simp only
    cases hi : p.intervals[i]? with
    | none => exact h
    | some t =>
      have hk := loadDashboardData_keepsTiming fetched plotly { p.world with now := t.nextDue }
      refine ⟨hk.1.trans h.1, hk.2.trans h.2.1, ?_⟩
      intro x hx
      rcases List.mem_or_eq_of_mem_set hx with hx | hx
      · exact h.2.2 x hx
      · rw [hx]
        exact h.2.2 t (List.getElem?_mem hi)

theorem reachable_invariant {p : Page} (h : Reachable p) : TimerInvariant p := by
  induction h with
  | init innerWidth dom =>
    refine ⟨rfl, rfl, ?_⟩
    intro t ht
    cases ht
  | step e p _ ih => exact step_invariant e ih

/-- C11: `startRealTimeUpdates` starts no timer when `realTimeEnabled` is false, and otherwise
starts one repeating timer whose period is `refreshInterval`; a tick of such a timer runs one
cycle of the Data Loader and is followed by the next tick one period later.  In every
reachable state of the controller `realTimeEnabled` is true and `refreshInterval` is the
default 30000, and every repeating timer has period 30000: so whenever a tick triggers the
Data Loader, `realTimeEnabled` is true at that tick.  After `DOMContentLoaded` on a fresh page
there is exactly one timer, of period 30000. -/
theorem realTime_refresh_timer :
    (∀ p : Page, Reachable p →
      p.world.state.realTimeEnabled = true ∧ p.world.state.refreshInterval = 30000 ∧
      ∀ t ∈ p.intervals, t.period = 30000) ∧
    (∀ p : Page, p.world.state.realTimeEnabled = false → startRealTimeUpdates p = p) ∧
    (∀ p : Page, p.world.state.realTimeEnabled = true →
      (startRealTimeUpdates p).intervals = p.intervals ++
        [{ period := p.world.state.refreshInterval
           nextDue := p.world.now + p.world.state.refreshInterval }]) ∧
    (∀ (p : Page) (i : ℕ) (t : IntervalTimer) (fetched : Except String DashboardData)
        (plotly : DrawCall → PlotOutcome), p.intervals[i]? = some t →
      (step (Event.intervalTick i fetched plotly) p).world =
        loadDashboardData fetched plotly { p.world with now := t.nextDue } ∧
      (step (Event.intervalTick i fetched plotly) p).intervals[i]? =
        some { period := t.period, nextDue := t.nextDue + t.period }) ∧
    (step Event.domContentLoaded (initialPage 1920 plainDom)).intervals =
      [{ period := 30000, nextDue := 30000 }] := by
  refine ⟨fun p hp => reachable_invariant hp, ?_, ?_, ?_, ?_⟩
  · intro p hp
    unfold startRealTimeUpdates
    simp [hp]
  · intro p hp
    unfold startRealTimeUpdates
    simp [hp]
  · intro p i t fetched plotly hi
    unfold step
    simp only [hi, refreshDashboard]
    refine ⟨trivial, ?_⟩
    rw [List.getElem?_set_self]
    exact (List.getElem?_eq_some.mp hi).1
  · decide

end HRDashboard
